import Mathlib

/-!
Verification model of the `epic-snake` WebSocket game server
(`src/wsserver/index.ts`).

Modelling conventions, used consistently below:
* JS numbers (positions, rotations) are modelled as real numbers; `Math.sqrt`
  is `Real.sqrt`; integer-valued counters (kills, score, growth, round number)
  are naturals; millisecond timestamps are integers.
* `Math.pow(a - b, 2)` is written `(a - b) ^ 2`.
* Player ids (`crypto.randomUUID()`) and WebSocket connections are opaque and
  modelled as naturals.  Randomness (`Math.random()`) and the wall clock
  (`Date.now()`) are modelled as oracle inputs threaded through an `Env`.
* `players` is a JS `Map` iterated in insertion order: modelled as an
  association list of pairs `(connection, PlayerState)`.
* Outbound `ws.send` calls are logged in an `outbox`; `setTimeout` calls are
  logged as `(delay, timline)` entries in `timers`; the scheduled callback
  bodies are modelled as named functions.
* Announcement texts (template strings) carry no game-relevant data beyond the
  interpolated ids, so they are modelled by an inductive `AnnKind` that keeps
  those ids; `serverTime` fields of outbound messages are elided since no
  claim concerns them.
-/

namespace EpicSnake

noncomputable section

open Classical

structure Position where
  x : ℝ
  y : ℝ

structure SnakeSegment where
  position : Position

structure PlayerState where
  id : ℕ
  segments : List SnakeSegment
  rotation : ℝ
  alive : Bool
  lastUpdate : ℤ
  kills : ℕ
  score : ℕ
  growth : ℕ

def SEGMENT_RADIUS : ℝ := 10

def COLLISION_DISTANCE : ℝ := SEGMENT_RADIUS * 2

def SEGMENT_DISTANCE : ℝ := SEGMENT_RADIUS * 2

def FOOD_COUNT : ℕ := 100

def FOOD_RADIUS : ℝ := 5

def FOOD_SCORE_VALUE : ℕ := 1

def FOOD_SEGMENTS_GROWTH : ℕ := 2

def KILL_SEGMENTS_GROWTH : ℕ := 5

def WINNING_KILLS : ℕ := 10

def MIN_PLAYERS_TO_START : ℕ := 2

def MAP_WIDTH : ℝ := 2400

def MAP_HEIGHT : ℝ := 1800

def INITIAL_SPAWN_AREA_WIDTH : ℝ := 800

def INITIAL_SPAWN_AREA_HEIGHT : ℝ := 600

def INACTIVE_TIMEOUT_MS : ℤ := 30000

/-- `Math.sqrt(Math.pow(x1-x2,2) + Math.pow(y1-y2,2))` — the distance
computation used by both collision detectors. -/
def distPow (p q : Position) : ℝ :=
  Real.sqrt ((p.x - q.x) ^ 2 + (p.y - q.y) ^ 2)

/-- The body of the segment-follow loop in `updateSnakeSegments`
(src/wsserver/index.ts lines 584-603): the current segment eases toward the
point at `SEGMENT_DISTANCE` from its (already updated) predecessor if it is
more than `1.2 *` that distance away, moving half of the correction. -/
def easeSegment (prevSeg currentSeg : SnakeSegment) : SnakeSegment :=
  let dx : ℝ := prevSeg.position.x - currentSeg.position.x
  let dy : ℝ := prevSeg.position.y - currentSeg.position.y
  let distance : ℝ := Real.sqrt (dx * dx + dy * dy)
  if distance > SEGMENT_DISTANCE * 1.2 then
    let targetDistance : ℝ := SEGMENT_DISTANCE
    let scale : ℝ := targetDistance / distance
    let newX : ℝ := prevSeg.position.x - dx * scale
    let newY : ℝ := prevSeg.position.y - dy * scale
    ⟨⟨currentSeg.position.x * 0.5 + newX * 0.5,
      currentSeg.position.y * 0.5 + newY * 0.5⟩⟩
  else
    currentSeg

/-- The `for (let i = 1; ...)` loop of `updateSnakeSegments`: each segment is
updated in place, so the next iteration reads the already-updated
predecessor. -/
def chainGo (prevSeg : SnakeSegment) : List SnakeSegment → List SnakeSegment
  | [] => []
  | c :: rest =>
    let c2 := easeSegment prevSeg c
    c2 :: chainGo c2 rest

/-- `updateSnakeSegments` (src/wsserver/index.ts lines 573-604): append one
segment at the tail position if growth is pending, then run the follow loop. -/
def updateSnakeSegments (player : PlayerState) : PlayerState :=
  let player :=
    match player.segments.getLast? with
    | some lastSegment =>
        if player.growth > 0 then
          { player with
              segments := player.segments ++ [SnakeSegment.mk lastSegment.position],
              growth := player.growth - 1 }
        else player
    | none => player
  { player with
      segments :=
        match player.segments with
        | [] => []
        | headSeg :: rest => headSeg :: chainGo headSeg rest }

/-- The growth phase of `updateSnakeSegments`, stated on its own (used to
express that growth is applied before the follow loop). -/
def applyGrowth (player : PlayerState) : PlayerState :=
  match player.segments.getLast? with
  | some lastSegment =>
      if player.growth > 0 then
        { player with
            segments := player.segments ++ [SnakeSegment.mk lastSegment.position],
            growth := player.growth - 1 }
      else player
  | none => player

/-- The follow phase of `updateSnakeSegments`, stated on its own. -/
def applyChain (player : PlayerState) : PlayerState :=
  { player with
      segments :=
        match player.segments with
        | [] => []
        | headSeg :: rest => headSeg :: chainGo headSeg rest }

/-- Oracle inputs of one server event: the wall clock (`Date.now()`) and the
`Math.random()` draws consumed by the event.  Each top-level event is run with
its own `Env`. -/
structure Env where
  now : ℤ
  spawnRand : ℕ → ℝ × ℝ
  foodRand : ℕ → ℝ × ℝ

/-- The random spawn position inside the central spawn rectangle (used by the
open handler and by `startNewRound`). -/
def spawnPosition (r : ℝ × ℝ) : Position :=
  ⟨(MAP_WIDTH - INITIAL_SPAWN_AREA_WIDTH) / 2 + r.1 * INITIAL_SPAWN_AREA_WIDTH,
   (MAP_HEIGHT - INITIAL_SPAWN_AREA_HEIGHT) / 2 + r.2 * INITIAL_SPAWN_AREA_HEIGHT⟩

/-- `generateFood` (src/wsserver/index.ts lines 157-166). -/
def generateFood (count : ℕ) (r : ℕ → ℝ × ℝ) : List Position :=
  (List.range count).map fun i => ⟨(r i).1 * MAP_WIDTH, (r i).2 * MAP_HEIGHT⟩

inductive AnnType where
  | info
  | warning
  | success
  | fatal
deriving DecidableEq

/-- The announcement texts, keeping the interpolated player ids / numbers. -/
inductive AnnKind where
  | waitingAnn
  | roundStartedAnn (roundNumber : ℕ)
  | winnerAnn (winner : ℕ)
  | killedAnn (killer victim : ℕ)
  | fiveKillsAnn (killer : ℕ)
  | oneMoreKillAnn (killer : ℕ)
  | collidedAnn (a b : ℕ)
  | pointsAnn (player score : ℕ)
  | fiftySegmentsAnn (player : ℕ)
  | hundredSegmentsAnn (player : ℕ)
  | lastAliveAnn (player : ℕ)
  | allSnakesDiedAnn
  | gameStartingAnn
  | startingGameAnn
  | forceStartedAnn
deriving DecidableEq

structure Announcement where
  kind : AnnKind
  atype : AnnType
  duration : ℕ
deriving DecidableEq

structure LeaderboardEntry where
  id : ℕ
  kills : ℕ
  score : ℕ
deriving DecidableEq

inductive DeathReason where
  | headCollision
  | tailCollision
deriving DecidableEq

/-- Outbound messages.  `serverTime` / `endTime` fields are elided. -/
inductive Msg where
  | connectedMsg (id roundNumber : ℕ) (waitingForPlayers : Bool) (playersNeeded : ℕ)
  | waitingForPlayersMsg (playersNeeded : ℕ)
  | announcementMsg (a : Announcement)
  | newRoundMsg (roundNumber : ℕ) (isActive : Bool) (announcements : List Announcement)
  | playerStatesMsg
  | diedMsg (reason : DeathReason) (killedBy : Option ℕ)
  | killMsg (kills score : ℕ) (growth : Option ℕ) (victim : ℕ)
  | lastAliveMsg
  | allDeadMsg
  | gameOverMsg (winner roundNumber : ℕ) (leaderboard : List LeaderboardEntry)
  | foodEatenMsg (score growth : ℕ)
deriving DecidableEq

/-- The callbacks passed to `setTimeout`: the game-over reset (5000 ms, body
`gameOverResetTimeout`), the respawn restarts (3000 ms, body `startNewRound`)
and the deferred `checkGameStatus` re-checks (100 ms). -/
inductive TimerKind where
  | gameOverResetTimer
  | respawnTimer
  | statusRecheckTimer
deriving DecidableEq

structure GameState where
  roundNumber : ℕ
  food : List Position
  winner : Option ℕ
  serverTime : ℤ
  roundEndTime : Option ℤ
  isActive : Bool
  waitingForPlayers : Bool
  gameOver : Bool
  lastAnnouncementTime : Option ℤ

/-- The whole mutable server state: the `players` map (association list in
insertion order), the game state, the retained announcements, plus logs of the
`ws.send` calls (`outbox`) and of the scheduled `setTimeout` callbacks
(`timers`, with their delays in ms). -/
structure Server where
  players : List (ℕ × PlayerState)
  game : GameState
  recentAnnouncements : List Announcement
  outbox : List (ℕ × Msg)
  timers : List (ℕ × TimerKind)

/-- `players.get(ws)`. -/
def getP (st : Server) (c : ℕ) : Option PlayerState :=
  (st.players.find? fun e => e.1 == c).map (fun e => e.2)

/-- Mutate the player object stored for connection `c` (JS object mutation
through a reference). -/
def mapP (st : Server) (c : ℕ) (f : PlayerState → PlayerState) : Server :=
  { st with players := st.players.map fun e => if e.1 == c then (e.1, f e.2) else e }

/-- One `ws.send` to a single connection. -/
def sendTo (st : Server) (c : ℕ) (m : Msg) : Server :=
  { st with outbox := st.outbox ++ [(c, m)] }

/-- `players.forEach((_, ws) => ws.send(...))`. -/
def broadcast (st : Server) (m : Msg) : Server :=
  { st with outbox := st.outbox ++ st.players.map fun e => (e.1, m) }

/-- Log a `setTimeout(callback, delay)`. -/
def schedule (st : Server) (delay : ℕ) (k : TimerKind) : Server :=
  { st with timers := st.timers ++ [(delay, k)] }

/-- `broadcastAnnouncement` (src/wsserver/index.ts lines 94-121): push, keep
only the last retained entry, stamp the time, send to everyone. -/
def broadcastAnnouncement (env : Env) (kind : AnnKind) (atype : AnnType)
    (duration : ℕ) (st : Server) : Server :=
  let a : Announcement := ⟨kind, atype, duration⟩
  let recent := st.recentAnnouncements ++ [a]
  let recent := if recent.length > 1 then recent.tail else recent
  let st :=
    { st with
        recentAnnouncements := recent,
        game := { st.game with lastAnnouncementTime := some env.now } }
  broadcast st (Msg.announcementMsg a)

/-- `broadcastPlayerStates` (src/wsserver/index.ts lines 785-837). -/
def broadcastPlayerStates (env : Env) (st : Server) : Server :=
  if st.players.length = 0 then st
  else
    let st := { st with game := { st.game with serverTime := env.now } }
    let st : Server :=
      match st.game.lastAnnouncementTime with
      | some t => if env.now - t > 3000 then { st with recentAnnouncements := [] } else st
      | none => st
    let aliveCount : ℕ := (st.players.filter fun e => e.2.alive).length
    let st :=
      if aliveCount = 0 ∧ st.game.isActive = true ∧ st.players.length > 0 then
        schedule st 100 TimerKind.statusRecheckTimer
      else st
    broadcast st Msg.playerStatesMsg

/-- Stable descending-by-kills sort (`.sort((a, b) => b.kills - a.kills)`). -/
def insertByKills (e : LeaderboardEntry) : List LeaderboardEntry → List LeaderboardEntry
  | [] => [e]
  | x :: xs => if x.kills < e.kills then e :: x :: xs else x :: insertByKills e xs

def sortByKillsDesc (l : List LeaderboardEntry) : List LeaderboardEntry :=
  l.foldr insertByKills []

/-- The reset of one player at the start of a post-game-over round
(src/wsserver/index.ts lines 211-224): keeps kills and score. -/
def resetPlayerForRound (env : Env) (i : ℕ) (p : PlayerState) : PlayerState :=
  { p with
      segments := [SnakeSegment.mk (spawnPosition (env.spawnRand i))],
      rotation := 0,
      alive := true,
      lastUpdate := env.now,
      growth := 0 }

/-- The respawn of one dead player at an ordinary round restart
(src/wsserver/index.ts lines 227-242): keeps growth, kills and score. -/
def respawnDeadPlayer (env : Env) (i : ℕ) (p : PlayerState) : PlayerState :=
  if p.alive = false then
    { p with
        segments := [SnakeSegment.mk (spawnPosition (env.spawnRand i))],
        rotation := 0,
        alive := true,
        lastUpdate := env.now }
  else p

/-- `startNewRound` (src/wsserver/index.ts lines 172-265).  Note that the
success path never writes `waitingForPlayers`.  `Math.max(0, MIN - size)` is
truncated natural subtraction. -/
def startNewRound (env : Env) (st : Server) : Server :=
  if st.players.length < MIN_PLAYERS_TO_START then
    let st :=
      { st with
          game := { st.game with
                      waitingForPlayers := true, isActive := false, roundEndTime := none } }
    let st := broadcast st (Msg.waitingForPlayersMsg (MIN_PLAYERS_TO_START - st.players.length))
    broadcastAnnouncement env AnnKind.waitingAnn AnnType.info 2000 st
  else
    let st :=
      { st with
          game := { st.game with isActive := true, winner := none, roundEndTime := none } }
    let st :=
      if st.game.gameOver = true then
        let st :=
          { st with
              game := { st.game with
                          roundNumber := st.game.roundNumber + 1,
                          gameOver := false,
                          food := generateFood FOOD_COUNT env.foodRand } }
        { st with
            players := st.players.enum.map fun ie => (ie.2.1, resetPlayerForRound env ie.1 ie.2.2) }
      else
        { st with
            players := st.players.enum.map fun ie => (ie.2.1, respawnDeadPlayer env ie.1 ie.2.2) }
    let st := broadcast st (Msg.newRoundMsg st.game.roundNumber true st.recentAnnouncements)
    let st := broadcastAnnouncement env (AnnKind.roundStartedAnn st.game.roundNumber) AnnType.success 2000 st
    broadcastPlayerStates env st

/-- `checkGameStatus` (src/wsserver/index.ts lines 268-411).  The leading
`if (isActive && !waitingForPlayers) {} else if (size < MIN) {...return}`
cascade is rendered as: enter waiting mode when NOT in a fully-active state
and below the minimum. -/
def checkGameStatus (env : Env) (st : Server) : Server :=
  if ¬(st.game.isActive = true ∧ st.game.waitingForPlayers = false) ∧
      st.players.length < MIN_PLAYERS_TO_START then
    let st :=
      { st with game := { st.game with waitingForPlayers := true, isActive := false } }
    broadcast st (Msg.waitingForPlayersMsg (MIN_PLAYERS_TO_START - st.players.length))
  else if st.game.waitingForPlayers = true ∧ MIN_PLAYERS_TO_START ≤ st.players.length then
    startNewRound env st
  else if st.game.isActive = false then st
  else
    match st.players.find? (fun e => decide (WINNING_KILLS ≤ e.2.kills)) with
    | some w =>
        let st :=
          { st with
              game := { st.game with
                          winner := some w.2.id,
                          roundEndTime := some (st.game.serverTime + 5000),
                          isActive := false } }
        let leaderboard :=
          sortByKillsDesc (st.players.map fun e => LeaderboardEntry.mk e.2.id e.2.kills e.2.score)
        let st := broadcast st (Msg.gameOverMsg w.2.id st.game.roundNumber leaderboard)
        let st := { st with recentAnnouncements := [] }
        let st := broadcastAnnouncement env (AnnKind.winnerAnn w.2.id) AnnType.success 2000 st
        schedule st 5000 TimerKind.gameOverResetTimer
    | none =>
        let alivePlayers := st.players.filter fun e => e.2.alive
        if alivePlayers.length = 1 ∧ st.players.length > 1 then
          match alivePlayers.head? with
          | some w =>
              let st := sendTo st w.1 Msg.lastAliveMsg
              let st := broadcastAnnouncement env (AnnKind.lastAliveAnn w.2.id) AnnType.warning 2000 st
              if st.players.length - alivePlayers.length > 0 then
                schedule st 3000 TimerKind.respawnTimer
              else st
          | none => st
        else if alivePlayers.length = 0 ∧ st.players.length > 0 then
          let st :=
            { st with
                game := { st.game with
                            roundEndTime := some (st.game.serverTime + 3000),
                            isActive := false } }
          let st := broadcast st Msg.allDeadMsg
          let st := broadcastAnnouncement env AnnKind.allSnakesDiedAnn AnnType.fatal 2000 st
          schedule st 3000 TimerKind.respawnTimer
        else st

/-- The `setTimeout` body of the game-over branch (src/wsserver/index.ts lines
347-355): zero every player's kills and score, raise `waitingForPlayers` and
`gameOver`, restart. -/
def gameOverResetTimeout (env : Env) (st : Server) : Server :=
  let st :=
    { st with
        players := st.players.map fun (e : ℕ × PlayerState) =>
          (e.1, { e.2 with kills := 0, score := 0 }) }
  let st := { st with game := { st.game with waitingForPlayers := true, gameOver := true } }
  startNewRound env st

/-- `player.segments[0].position = data.position` guarded by a non-empty
check (src/wsserver/index.ts lines 536-538). -/
def setHead (pos : Position) (p : PlayerState) : PlayerState :=
  match p.segments with
  | [] => p
  | _ :: rest => { p with segments := SnakeSegment.mk pos :: rest }

/-- The body of the consumption branch plus milestone announcements and the
`foodEaten` unicast, for food index `i` (src/wsserver/index.ts lines 737-781).
`Math.random()` draws for the replacement are taken from `env.foodRand i`. -/
def foodStep (env : Env) (c : ℕ) (headPos : Position) (i : ℕ) (st : Server) : Server :=
  match st.game.food.get? i with
  | none => st
  | some f =>
    if distPow headPos f < SEGMENT_RADIUS + FOOD_RADIUS then
      let st := { st with game := { st.game with food := st.game.food.eraseIdx i } }
      let st :=
        mapP st c fun p =>
          { p with score := p.score + FOOD_SCORE_VALUE, growth := p.growth + FOOD_SEGMENTS_GROWTH }
      let st :=
        { st with
            game := { st.game with
                        food := st.game.food ++
                          [Position.mk ((env.foodRand i).1 * MAP_WIDTH)
                            ((env.foodRand i).2 * MAP_HEIGHT)] } }
      match getP st c with
      | none => st
      | some p =>
        let totalLength := p.segments.length + p.growth
        let st :=
          if p.score % 50 = 0 ∧ p.score > 0 ∧ 50 ≤ p.score then
            broadcastAnnouncement env (AnnKind.pointsAnn p.id p.score) AnnType.success 2000 st
          else st
        let st :=
          if totalLength = 50 then
            broadcastAnnouncement env (AnnKind.fiftySegmentsAnn p.id) AnnType.success 2000 st
          else if totalLength = 100 then
            broadcastAnnouncement env (AnnKind.hundredSegmentsAnn p.id) AnnType.success 2000 st
          else st
        match st.players.find? (fun e => e.2.id == p.id) with
        | some e => sendTo st e.1 (Msg.foodEatenMsg p.score (p.segments.length + p.growth))
        | none => st
    else st

/-- The `for (let i = food.length - 1; i >= 0; i--)` loop: indices processed
from `i` down to `0`. -/
def foodLoop (env : Env) (c : ℕ) (headPos : Position) : ℕ → Server → Server
  | 0, st => foodStep env c headPos 0 st
  | i + 1, st => foodLoop env c headPos i (foodStep env c headPos (i + 1) st)

/-- `checkFoodCollisions` (src/wsserver/index.ts lines 727-783), for the
player stored at connection `c`. -/
def checkFoodCollisions (env : Env) (c : ℕ) (st : Server) : Server :=
  match getP st c with
  | none => st
  | some player =>
    if player.alive = false ∨ player.segments = [] then st
    else
      match player.segments.head? with
      | none => st
      | some h0 =>
        match st.game.food.length with
        | 0 => st
        | n + 1 => foodLoop env c h0.position n st

/-- Effects of the mover's head hitting another snake's tail segment
(src/wsserver/index.ts lines 646-688): mover dies, the other player gains one
kill, +5 score and +`KILL_SEGMENTS_GROWTH` growth; announcements; a `died`
message to the mover and a four-field `kill` message to the other player. -/
def tailHitEffects1 (env : Env) (currentWs wsA : ℕ) (st : Server) : Server :=
  let st := mapP st currentWs fun p => { p with alive := false }
  let st :=
    mapP st wsA fun p =>
      { p with kills := p.kills + 1, score := p.score + 5, growth := p.growth + KILL_SEGMENTS_GROWTH }
  match getP st wsA, getP st currentWs with
  | some pA, some cur =>
    let st := broadcastAnnouncement env (AnnKind.killedAnn pA.id cur.id) AnnType.warning 2000 st
    let st :=
      if pA.kills = 5 then
        broadcastAnnouncement env (AnnKind.fiveKillsAnn pA.id) AnnType.warning 2000 st
      else if pA.kills = WINNING_KILLS - 1 then
        broadcastAnnouncement env (AnnKind.oneMoreKillAnn pA.id) AnnType.fatal 2000 st
      else st
    let st := sendTo st currentWs (Msg.diedMsg DeathReason.tailCollision (some pA.id))
    sendTo st wsA (Msg.killMsg pA.kills pA.score (some KILL_SEGMENTS_GROWTH) cur.id)
  | _, _ => st

/-- The first tail loop (`for (let k = 1; ...)` over the other player's
segments) with its `break`: the effects fire at the first hit only. -/
def tailLoop1 (env : Env) (currentWs wsA : ℕ) (headCurrent : Position) (st : Server) :
    List SnakeSegment → Server
  | [] => st
  | s :: rest =>
    if distPow headCurrent s.position < COLLISION_DISTANCE then
      tailHitEffects1 env currentWs wsA st
    else
      tailLoop1 env currentWs wsA headCurrent st rest

/-- Effects of the other snake's head hitting the mover's tail segment
(src/wsserver/index.ts lines 699-721): the other player dies, the mover gains
one kill, +1 score and +`KILL_SEGMENTS_GROWTH` growth; a `died` message to the
other player and a `kill` message WITHOUT a growth field to the mover. -/
def tailHitEffects2 (env : Env) (currentWs wsA : ℕ) (st : Server) : Server :=
  let st := mapP st wsA fun p => { p with alive := false }
  let st :=
    mapP st currentWs fun p =>
      { p with kills := p.kills + 1, score := p.score + 1, growth := p.growth + KILL_SEGMENTS_GROWTH }
  match getP st wsA, getP st currentWs with
  | some pA, some cur =>
    let st := sendTo st wsA (Msg.diedMsg DeathReason.tailCollision (some cur.id))
    sendTo st currentWs (Msg.killMsg cur.kills cur.score none pA.id)
  | _, _ => st

/-- The second tail loop (over the mover's segments) with its `break`. -/
def tailLoop2 (env : Env) (currentWs wsA : ℕ) (headA : Position) (st : Server) :
    List SnakeSegment → Server
  | [] => st
  | s :: rest =>
    if distPow headA s.position < COLLISION_DISTANCE then
      tailHitEffects2 env currentWs wsA st
    else
      tailLoop2 env currentWs wsA headA st rest

/-- One iteration of the outer loop of `checkCollisions` for the pair
(mover = `currentWs`, other = `wsA`) (src/wsserver/index.ts lines 609-723).
Player objects are read from the store at processing time (JS references). -/
def pairStep (env : Env) (currentWs : ℕ) (st : Server) (wsA : ℕ) : Server :=
  match getP st wsA, getP st currentWs with
  | some playerA, some currentPlayer =>
    if wsA ≠ currentWs ∧ playerA.alive = true ∧ playerA.segments ≠ [] then
      match currentPlayer.segments.head?, playerA.segments.head? with
      | none, _ => st
      | _, none => st
      | some hC, some hA =>
        let headA := hA.position
        let headCurrent := hC.position
        if distPow headCurrent headA < COLLISION_DISTANCE then
          let st := mapP st currentWs fun p => { p with alive := false }
          let st := mapP st wsA fun p => { p with alive := false }
          let st := sendTo st currentWs (Msg.diedMsg DeathReason.headCollision none)
          let st := sendTo st wsA (Msg.diedMsg DeathReason.headCollision none)
          broadcastAnnouncement env (AnnKind.collidedAnn playerA.id currentPlayer.id)
            AnnType.fatal 2000 st
        else
          let st := tailLoop1 env currentWs wsA headCurrent st playerA.segments.tail
          tailLoop2 env currentWs wsA headA st currentPlayer.segments.tail
    else st
  | _, _ => st

/-- `checkCollisions` (src/wsserver/index.ts lines 606-725): fold the pair
step over the snapshot of connections. -/
def checkCollisions (env : Env) (currentWs : ℕ) (st : Server) : Server :=
  (st.players.map fun e => e.1).foldl (pairStep env currentWs) st

/-- Parsed inbound messages (`MovementMessage`). -/
inductive Inbound where
  | movement (position : Option Position) (rotation : Option ℝ)
  | forceStart

/-- The `message` websocket handler (src/wsserver/index.ts lines 492-560) for
a well-formed payload from connection `c`. -/
def wsMessage (env : Env) (c : ℕ) (data : Inbound) (st : Server) : Server :=
  let player? := getP st c
  if st.game.isActive = false ∧ player?.isSome = true ∧
      MIN_PLAYERS_TO_START ≤ st.players.length then
    let st := { st with game := { st.game with waitingForPlayers := false, isActive := true } }
    let st := broadcastAnnouncement env AnnKind.gameStartingAnn AnnType.success 2000 st
    startNewRound env st
  else
    match player? with
    | none => st
    | some player =>
      if st.game.isActive = false then
        if MIN_PLAYERS_TO_START ≤ st.players.length then
          startNewRound env (broadcastAnnouncement env AnnKind.startingGameAnn AnnType.success 2000 st)
        else st
      else if player.alive = false then st
      else
        match data with
        | Inbound.forceStart =>
          let st := { st with game := { st.game with waitingForPlayers := false, isActive := true } }
          let st := broadcastAnnouncement env AnnKind.forceStartedAnn AnnType.warning 2000 st
          startNewRound env st
        | Inbound.movement pos? rot? =>
          match pos? with
          | none => st
          | some pos =>
            let st := mapP st c fun p => { p with lastUpdate := env.now }
            let st := mapP st c (setHead pos)
            let st :=
              match rot? with
              | some r => mapP st c fun p => { p with rotation := r }
              | none => st
            let st := mapP st c updateSnakeSegments
            let st := checkFoodCollisions env c st
            let st := checkCollisions env c st
            let st := checkGameStatus env st
            broadcastPlayerStates env st

/-- Removal of sessions whose last activity is over the inactivity window
(used by the tick and by the open handler, both with a 30000 ms window). -/
def reapInactive (env : Env) (st : Server) : Server :=
  { st with
      players := st.players.filter fun e =>
        !(decide (env.now - e.2.lastUpdate > INACTIVE_TIMEOUT_MS)) }

/-- The `open` websocket handler (src/wsserver/index.ts lines 439-491) for a
fresh connection `c` with the freshly generated player id `newId`. -/
def wsOpen (env : Env) (c : ℕ) (newId : ℕ) (st : Server) : Server :=
  let initialPosition := spawnPosition (env.spawnRand 0)
  let st := reapInactive env st
  let st :=
    { st with
        players := st.players ++
          [(c, PlayerState.mk newId [SnakeSegment.mk initialPosition] 0 true env.now 0 0 0)] }
  let st :=
    sendTo st c
      (Msg.connectedMsg newId st.game.roundNumber st.game.waitingForPlayers
        (if st.game.waitingForPlayers = true then
          MIN_PLAYERS_TO_START - st.players.length
        else 0))
  let st := broadcastPlayerStates env st
  if st.game.waitingForPlayers = true ∧ MIN_PLAYERS_TO_START ≤ st.players.length then
    startNewRound env { st with game := { st.game with waitingForPlayers := false } }
  else st

/-- The `close` websocket handler (src/wsserver/index.ts lines 561-569). -/
def wsClose (env : Env) (c : ℕ) (st : Server) : Server :=
  let st := { st with players := st.players.filter fun e => !(e.1 == c) }
  let st := broadcastPlayerStates env st
  schedule st 100 TimerKind.statusRecheckTimer

/-- The once-per-second `setInterval` tick (src/wsserver/index.ts lines
124-154). -/
def serverTick (env : Env) (st : Server) : Server :=
  let st := { st with game := { st.game with serverTime := env.now } }
  let st :=
    if st.game.waitingForPlayers = true ∧ st.game.isActive = false ∧
        MIN_PLAYERS_TO_START ≤ st.players.length then
      startNewRound env { st with game := { st.game with waitingForPlayers := false } }
    else st
  let removed :=
    (st.players.filter fun e => decide (env.now - e.2.lastUpdate > INACTIVE_TIMEOUT_MS)).length
  let st := reapInactive env st
  if removed > 0 then checkGameStatus env (broadcastPlayerStates env st) else st

/-- The process-start game state (src/wsserver/index.ts lines 78-88 and 169). -/
def initialServer (now : ℤ) (foodR : ℕ → ℝ × ℝ) : Server :=
  { players := [],
    game :=
      { roundNumber := 1,
        food := generateFood FOOD_COUNT foodR,
        winner := none,
        serverTime := now,
        roundEndTime := none,
        isActive := false,
        waitingForPlayers := true,
        gameOver := false,
        lastAnnouncementTime := some now },
    recentAnnouncements := [],
    outbox := [],
    timers := [] }

/-- Following the spec wording (4.1): the point at exactly the target
inter-segment distance from the (updated) predecessor, along the direction
from the predecessor to the segment.  Compared against the code formula in
the C7 theorem. -/
def specTargetPoint (prevSeg cur : SnakeSegment) : Position :=
  ⟨prevSeg.position.x +
      (cur.position.x - prevSeg.position.x) *
        (SEGMENT_DISTANCE / distPow prevSeg.position cur.position),
   prevSeg.position.y +
      (cur.position.y - prevSeg.position.y) *
        (SEGMENT_DISTANCE / distPow prevSeg.position cur.position)⟩

/-- Following the spec wording (4.1): move the segment halfway (lerp factor
0.5) toward `specTargetPoint`. -/
def specEase (prevSeg cur : SnakeSegment) : SnakeSegment :=
  ⟨⟨cur.position.x * 0.5 + (specTargetPoint prevSeg cur).x * 0.5,
    cur.position.y * 0.5 + (specTargetPoint prevSeg cur).y * 0.5⟩⟩

/-- The per-session invariant of C1: every stored session has a non-empty
segment list. -/
def SegInv (st : Server) : Prop :=
  ∀ e ∈ st.players, (e : ℕ × PlayerState).2.segments ≠ []

def isGameOverMsg : Msg → Bool
  | Msg.gameOverMsg _ _ _ => true
  | _ => false

def isFoodEatenMsg : Msg → Bool
  | Msg.foodEatenMsg _ _ => true
  | _ => false

def isDiedMsg : Msg → Bool
  | Msg.diedMsg _ _ => true
  | _ => false

def isKillMsg : Msg → Bool
  | Msg.killMsg _ _ _ _ => true
  | _ => false

def isAnnouncementMsg : Msg → Bool
  | Msg.announcementMsg _ => true
  | _ => false

/-- A fixed oracle: clock at 0, all random draws 0. -/
def env0 : Env := ⟨0, fun _ => (0, 0), fun _ => (0, 0)⟩

/-- A server state just after a threshold win was processed by
`checkGameStatus`: two connected sessions, the winner (connection 0, id 10)
holding `WINNING_KILLS` kills and still alive, the victim (connection 1,
id 11) dead; the round is frozen (`isActive = false`, `winner` set,
`roundEndTime` pending) and the 5-second reset is scheduled. -/
def stPostWin : Server :=
  { players :=
      [(0, ⟨10, [⟨⟨100, 900⟩⟩], 0, true, 0, 10, 55, 0⟩),
       (1, ⟨11, [⟨⟨300, 900⟩⟩], 0, false, 0, 0, 3, 0⟩)],
    game := ⟨1, generateFood FOOD_COUNT (fun _ => (0, 0)), some 10, 0, some 5000,
      false, false, false, some 0⟩,
    recentAnnouncements := [⟨AnnKind.winnerAnn 10, AnnType.success, 2000⟩],
    outbox := [],
    timers := [(5000, TimerKind.gameOverResetTimer)] }

/-- A movement message sent during the post-win freeze window. -/
def mv0 : Inbound := Inbound.movement (some ⟨100, 900⟩) none

/-- The state after that movement message is handled: the `!isActive` restart
branch of the message handler fires and re-enters an active round while the
winner still holds `WINNING_KILLS` kills. -/
def stMid : Server := wsMessage env0 0 mv0 stPostWin

/-- A minimal game state for the concrete collision scenarios. -/
def g6 : GameState := ⟨1, [], none, 0, none, true, false, false, some 0⟩

/-- Scenario D mover: a one-segment snake with its head at (0, 900). -/
def pM6 : PlayerState := ⟨20, [⟨⟨0, 900⟩⟩], 0, true, 0, 0, 0, 0⟩

/-- Scenario D other player: head at (100, 900), one tail segment at
(10, 900) — within collision distance of the mover's head. -/
def pB6 : PlayerState := ⟨21, [⟨⟨100, 900⟩⟩, ⟨⟨10, 900⟩⟩], 0, true, 0, 0, 0, 0⟩

/-- Reverse-collision mover: head at (0, 900), one tail segment at
(30, 900). -/
def pM10 : PlayerState := ⟨20, [⟨⟨0, 900⟩⟩, ⟨⟨30, 900⟩⟩], 0, true, 0, 0, 0, 0⟩

/-- Reverse-collision other player: a one-segment snake whose head at
(35, 900) is within collision distance of the mover's tail segment. -/
def pB10 : PlayerState := ⟨21, [⟨⟨35, 900⟩⟩], 0, true, 0, 0, 0, 0⟩

/-- The store for the reverse tail-collision scenario. -/
def stC10 : Server := ⟨[(0, pM10), (1, pB10)], g6, [], [], []⟩

/-- Mid-pass scenario, second player: head far away at (100, 900), tail
segment at (5, 900) next to the mover's head. -/
def pB8 : PlayerState := ⟨21, [⟨⟨100, 900⟩⟩, ⟨⟨5, 900⟩⟩], 0, true, 0, 0, 0, 0⟩

/-- Mid-pass scenario, third player: head far away at (200, 900), tail
segment at (10, 900) also next to the mover's head. -/
def pC8 : PlayerState := ⟨22, [⟨⟨200, 900⟩⟩, ⟨⟨10, 900⟩⟩], 0, true, 0, 0, 0, 0⟩

/-- The store for the mid-pass death scenario: the mover (connection 0)
touches the tails of both other snakes at once. -/
def stC8 : Server := ⟨[(0, pM6), (1, pB8), (2, pC8)], g6, [], [], []⟩

/-- The connection/segment view of the store: which sessions exist and what
their segment lists are. -/
def segsOf (st : Server) : List (ℕ × List SnakeSegment) :=
  st.players.map fun e => (e.1, e.2.segments)

/-- A waiting server state with a single connected session. -/
def stWait1 : Server :=
  { players := [(0, ⟨10, [⟨⟨100, 900⟩⟩], 0, true, 0, 0, 0, 0⟩)],
    game := ⟨1, generateFood FOOD_COUNT (fun _ => (0, 0)), none, 0, none,
      false, true, false, some 0⟩,
    recentAnnouncements := [],
    outbox := [],
    timers := [] }

-- THEOREMS

theorem chainGo_length (prevSeg : SnakeSegment) (l : List SnakeSegment) :
    (chainGo prevSeg l).length = l.length := by
  induction l generalizing prevSeg with
  | nil => rfl
  | cons c rest ih => simp [chainGo, ih]

theorem chainGo_eq_zipWith (prevSeg : SnakeSegment) (l : List SnakeSegment) :
    chainGo prevSeg l =
      List.zipWith easeSegment (prevSeg :: chainGo prevSeg l).dropLast l := by
  induction l generalizing prevSeg with
  | nil => rfl
  | cons c rest ih =>
    simp only [chainGo]
    rw [show (prevSeg :: (easeSegment prevSeg c :: chainGo (easeSegment prevSeg c) rest)).dropLast
        = prevSeg :: (easeSegment prevSeg c :: chainGo (easeSegment prevSeg c) rest).dropLast
      from rfl]
    simp only [List.zipWith_cons_cons, List.cons.injEq, true_and]
    exact ih (easeSegment prevSeg c)

theorem easeSegment_eq_specEase (prevSeg cur : SnakeSegment) :
    easeSegment prevSeg cur =
      (if distPow prevSeg.position cur.position > SEGMENT_DISTANCE * 1.2 then
        specEase prevSeg cur
      else cur) := by
  have hsq :
      (prevSeg.position.x - cur.position.x) * (prevSeg.position.x - cur.position.x) +
          (prevSeg.position.y - cur.position.y) * (prevSeg.position.y - cur.position.y) =
        (prevSeg.position.x - cur.position.x) ^ 2 + (prevSeg.position.y - cur.position.y) ^ 2 := by
    ring
  simp only [easeSegment, specEase, specTargetPoint, distPow, hsq]
  by_cases h :
      Real.sqrt
          ((prevSeg.position.x - cur.position.x) ^ 2 + (prevSeg.position.y - cur.position.y) ^ 2) >
        SEGMENT_DISTANCE * 1.2
  · rw [if_pos h, if_pos h]
    simp only [SnakeSegment.mk.injEq, Position.mk.injEq]
    constructor <;> ring
  · rw [if_neg h, if_neg h]

theorem applyChain_head (q : PlayerState) :
    (applyChain q).segments.head? = q.segments.head? := by
  cases h : q.segments <;> simp [applyChain, h]

theorem applyChain_tail_zipWith (q : PlayerState) :
    (applyChain q).segments.tail =
      List.zipWith easeSegment (applyChain q).segments.dropLast q.segments.tail := by
  cases h : q.segments with
  | nil => simp [applyChain, h]
  | cons a t =>
    simp only [applyChain, h, List.tail_cons]
    exact chainGo_eq_zipWith a t

theorem applyGrowth_segments (p : PlayerState) :
    (applyGrowth p).segments =
      p.segments ++
        (if p.growth > 0 then
          (p.segments.getLast?.map fun s => [SnakeSegment.mk s.position]).getD []
        else []) := by
  unfold applyGrowth
  cases h : p.segments.getLast? with
  | none => simp
  | some s =>
    by_cases hg : p.growth > 0
    · simp [hg]
    · simp [hg]

theorem applyGrowth_growth (p : PlayerState) :
    (applyGrowth p).growth =
      (if p.growth > 0 ∧ p.segments ≠ [] then p.growth - 1 else p.growth) := by
  unfold applyGrowth
  cases h : p.segments.getLast? with
  | none =>
    have : p.segments = [] := List.getLast?_eq_none_iff.mp h
    simp [this]
  | some s =>
    have hne : p.segments ≠ [] := by
      intro hs; rw [hs] at h; simp at h
    by_cases hg : p.growth > 0
    · simp [hg, hne]
    · simp [hg]

theorem SegInv_of_players_eq {st st2 : Server} (h : st2.players = st.players)
    (hs : SegInv st) : SegInv st2 := by
  intro e he
  exact hs e (h ▸ he)

theorem SegInv_mapP {st : Server} {c : ℕ} {f : PlayerState → PlayerState}
    (hf : ∀ p, p.segments ≠ [] → (f p).segments ≠ []) (hs : SegInv st) :
    SegInv (mapP st c f) := by
  intro e he
  simp only [mapP, List.mem_map] at he
  obtain ⟨a, ha, rfl⟩ := he
  by_cases h1 : (a.1 == c) = true
  · rw [if_pos h1]
    exact hf _ (hs a ha)
  · rw [if_neg h1]
    exact hs a ha

theorem SegInv_game (g : GameState) {st : Server} (hs : SegInv st) :
    SegInv { st with game := g } := hs

theorem SegInv_sendTo (c : ℕ) (m : Msg) {st : Server} (hs : SegInv st) :
    SegInv (sendTo st c m) := hs

theorem SegInv_schedule (d : ℕ) (k : TimerKind) {st : Server} (hs : SegInv st) :
    SegInv (schedule st d k) := hs

theorem SegInv_broadcastAnnouncement (env : Env) (kind : AnnKind) (atype : AnnType)
    (dur : ℕ) {st : Server} (hs : SegInv st) :
    SegInv (broadcastAnnouncement env kind atype dur st) := hs

theorem SegInv_players_filter {st : Server} (pred : ℕ × PlayerState → Bool)
    (hs : SegInv st) : SegInv { st with players := st.players.filter pred } := by
  intro e he
  exact hs e (List.mem_of_mem_filter he)

theorem players_broadcastPlayerStates (env : Env) (st : Server) :
    (broadcastPlayerStates env st).players = st.players := by
  unfold broadcastPlayerStates
  dsimp only
  split
  · rfl
  · split <;> (try split) <;> (try split) <;> rfl

theorem SegInv_broadcastPlayerStates (env : Env) {st : Server} (hs : SegInv st) :
    SegInv (broadcastPlayerStates env st) :=
  SegInv_of_players_eq (players_broadcastPlayerStates env st) hs

theorem SegInv_startNewRound (env : Env) {st : Server} (hs : SegInv st) :
    SegInv (startNewRound env st) := by
  unfold startNewRound
  dsimp only
  split
  · exact hs
  · split
    · apply SegInv_broadcastPlayerStates
      intro e he
      obtain ⟨a, _, rfl⟩ := List.mem_map.mp he
      simp [resetPlayerForRound]
    · apply SegInv_broadcastPlayerStates
      intro e he
      obtain ⟨a, ha, rfl⟩ := List.mem_map.mp he
      unfold respawnDeadPlayer
      split
      · simp
      · exact hs a.2 (List.getElem?_mem (List.mem_enum_iff_getElem?.mp ha))

theorem SegInv_checkGameStatus (env : Env) {st : Server} (hs : SegInv st) :
    SegInv (checkGameStatus env st) := by
  unfold checkGameStatus
  dsimp only
  split
  · exact hs
  · split
    · exact SegInv_startNewRound env hs
    · split
      · exact hs
      · split
        · exact hs
        · split
          · split
            · split <;> exact hs
            · exact hs
          · split
            · exact hs
            · exact hs

theorem SegInv_gameOverResetTimeout (env : Env) {st : Server} (hs : SegInv st) :
    SegInv (gameOverResetTimeout env st) := by
  unfold gameOverResetTimeout
  apply SegInv_startNewRound
  intro e he
  simp only [List.mem_map] at he
  obtain ⟨a, ha, rfl⟩ := he
  exact hs a ha

theorem updateSnakeSegments_ne_nil {p : PlayerState} (h : p.segments ≠ []) :
    (updateSnakeSegments p).segments ≠ [] := by
  have hdecomp : updateSnakeSegments p = applyChain (applyGrowth p) := rfl
  rw [hdecomp]
  have h2 : (applyGrowth p).segments ≠ [] := by
    rw [applyGrowth_segments]
    intro hc
    exact h (List.append_eq_nil.mp hc).1
  unfold applyChain
  cases hseg : (applyGrowth p).segments with
  | nil => exact absurd hseg h2
  | cons a t => simp

theorem SegInv_tailHitEffects1 (env : Env) (cw wa : ℕ) {st : Server} (hs : SegInv st) :
    SegInv (tailHitEffects1 env cw wa st) := by
  unfold tailHitEffects1
  dsimp only
  have h1 : SegInv (mapP (mapP st cw fun p => { p with alive := false }) wa fun p =>
      { p with kills := p.kills + 1, score := p.score + 5,
               growth := p.growth + KILL_SEGMENTS_GROWTH }) :=
    SegInv_mapP (fun p hp => hp) (SegInv_mapP (fun p hp => hp) hs)
  split
  · split <;> (try split) <;> exact h1
  · exact h1

theorem SegInv_tailLoop1 (env : Env) (cw wa : ℕ) (hd : Position) {st : Server}
    (hs : SegInv st) : ∀ l : List SnakeSegment, SegInv (tailLoop1 env cw wa hd st l)
  | [] => hs
  | s :: rest => by
    unfold tailLoop1
    split
    · exact SegInv_tailHitEffects1 env cw wa hs
    · exact SegInv_tailLoop1 env cw wa hd hs rest

theorem SegInv_tailHitEffects2 (env : Env) (cw wa : ℕ) {st : Server} (hs : SegInv st) :
    SegInv (tailHitEffects2 env cw wa st) := by
  unfold tailHitEffects2
  dsimp only
  have h1 : SegInv (mapP (mapP st wa fun p => { p with alive := false }) cw fun p =>
      { p with kills := p.kills + 1, score := p.score + 1,
               growth := p.growth + KILL_SEGMENTS_GROWTH }) :=
    SegInv_mapP (fun p hp => hp) (SegInv_mapP (fun p hp => hp) hs)
  split
  · exact h1
  · exact h1

theorem SegInv_tailLoop2 (env : Env) (cw wa : ℕ) (hd : Position) {st : Server}
    (hs : SegInv st) : ∀ l : List SnakeSegment, SegInv (tailLoop2 env cw wa hd st l)
  | [] => hs
  | s :: rest => by
    unfold tailLoop2
    split
    · exact SegInv_tailHitEffects2 env cw wa hs
    · exact SegInv_tailLoop2 env cw wa hd hs rest

theorem SegInv_pairStep (env : Env) (cw : ℕ) {st : Server} (hs : SegInv st) (wa : ℕ) :
    SegInv (pairStep env cw st wa) := by
  unfold pairStep
  dsimp only
  split
  · split
    · split
      · exact hs
      · exact hs
      · split
        · apply SegInv_broadcastAnnouncement
          apply SegInv_sendTo
          apply SegInv_sendTo
          refine SegInv_mapP ?_ ?_
          · intro p hp
            exact hp
          · refine SegInv_mapP ?_ ?_
            · intro p hp
              exact hp
            · exact hs
        · exact SegInv_tailLoop2 env cw wa _ (SegInv_tailLoop1 env cw wa _ hs _) _
    · exact hs
  · exact hs

theorem SegInv_checkCollisions (env : Env) (cw : ℕ) {st : Server} (hs : SegInv st) :
    SegInv (checkCollisions env cw st) := by
  unfold checkCollisions
  generalize st.players.map (fun e => e.1) = conns
  induction conns generalizing st with
  | nil => exact hs
  | cons a t ih => exact ih (SegInv_pairStep env cw hs a)

theorem SegInv_foodStep (env : Env) (c : ℕ) (hd : Position) (i : ℕ) {st : Server}
    (hs : SegInv st) : SegInv (foodStep env c hd i st) := by
  unfold foodStep
  dsimp only
  split
  · exact hs
  · split
    · have h1 : SegInv
          (mapP { st with game := { st.game with food := st.game.food.eraseIdx i } } c
            fun p => { p with score := p.score + FOOD_SCORE_VALUE,
                              growth := p.growth + FOOD_SEGMENTS_GROWTH }) :=
        SegInv_mapP (fun p hp => hp) hs
      split
      · exact h1
      · split <;> (try split) <;> split <;> (try split) <;> exact h1
    · exact hs

theorem SegInv_foodLoop (env : Env) (c : ℕ) (hd : Position) {st : Server}
    (hs : SegInv st) : ∀ n, SegInv (foodLoop env c hd n st)
  | 0 => SegInv_foodStep env c hd 0 hs
  | n + 1 => by
    unfold foodLoop
    exact SegInv_foodLoop env c hd (SegInv_foodStep env c hd (n + 1) hs) n

theorem SegInv_checkFoodCollisions (env : Env) (c : ℕ) {st : Server} (hs : SegInv st) :
    SegInv (checkFoodCollisions env c st) := by
  unfold checkFoodCollisions
  split
  · exact hs
  · split
    · exact hs
    · split
      · exact hs
      · split
        · exact hs
        · exact SegInv_foodLoop env c _ hs _

theorem SegInv_wsMessage (env : Env) (c : ℕ) (data : Inbound) {st : Server}
    (hs : SegInv st) : SegInv (wsMessage env c data st) := by
  unfold wsMessage
  dsimp only
  split
  · exact SegInv_startNewRound env hs
  · split
    · exact hs
    · split
      · split
        · exact SegInv_startNewRound env hs
        · exact hs
      · split
        · exact hs
        · split
          · exact SegInv_startNewRound env hs
          · split
            · exact hs
            · apply SegInv_broadcastPlayerStates
              apply SegInv_checkGameStatus
              apply SegInv_checkCollisions
              apply SegInv_checkFoodCollisions
              have h2 : ∀ (pos : Position) (p : PlayerState), p.segments ≠ [] →
                  (setHead pos p).segments ≠ [] := by
                intro pos p hp
                unfold setHead
                cases hsegs : p.segments with
                | nil => exact absurd hsegs hp
                | cons a t => simp
              refine SegInv_mapP (fun p hp => updateSnakeSegments_ne_nil hp) ?_
              split
              · refine SegInv_mapP ?_ ?_
                · intro p hp
                  exact hp
                · refine SegInv_mapP ?_ ?_
                  · intro p hp
                    exact h2 _ p hp
                  · refine SegInv_mapP ?_ ?_
                    · intro p hp
                      exact hp
                    · exact hs
              · refine SegInv_mapP ?_ ?_
                · intro p hp
                  exact h2 _ p hp
                · refine SegInv_mapP ?_ ?_
                  · intro p hp
                    exact hp
                  · exact hs

theorem SegInv_wsOpen (env : Env) (c newId : ℕ) {st : Server} (hs : SegInv st) :
    SegInv (wsOpen env c newId st) := by
  unfold wsOpen
  dsimp only
  have key : ∀ e : ℕ × PlayerState,
      e ∈ (reapInactive env st).players ++
        [(c, PlayerState.mk newId [SnakeSegment.mk (spawnPosition (env.spawnRand 0))]
          0 true env.now 0 0 0)] →
      e.2.segments ≠ [] := by
    intro e he
    rcases List.mem_append.mp he with h2 | h2
    · exact hs e (List.mem_of_mem_filter h2)
    · simp only [List.mem_singleton] at h2
      subst h2
      simp
  split <;> (try split)
  all_goals
    first
      | (apply SegInv_startNewRound
         apply SegInv_game
         apply SegInv_broadcastPlayerStates
         intro e he
         exact key e he)
      | (apply SegInv_broadcastPlayerStates
         intro e he
         exact key e he)

theorem SegInv_wsClose (env : Env) (c : ℕ) {st : Server} (hs : SegInv st) :
    SegInv (wsClose env c st) := by
  unfold wsClose
  dsimp only
  exact SegInv_broadcastPlayerStates env (SegInv_players_filter _ hs)

theorem SegInv_serverTick (env : Env) {st : Server} (hs : SegInv st) :
    SegInv (serverTick env st) := by
  unfold serverTick
  dsimp only
  split <;> (try split)
  all_goals
    first
      | (apply SegInv_checkGameStatus
         apply SegInv_broadcastPlayerStates
         intro e he
         first
           | exact SegInv_startNewRound env (SegInv_game _ hs) e (List.mem_of_mem_filter he)
           | exact SegInv_game _ hs e (List.mem_of_mem_filter he)
           | exact hs e (List.mem_of_mem_filter he))
      | (intro e he
         first
           | exact SegInv_startNewRound env (SegInv_game _ hs) e (List.mem_of_mem_filter he)
           | exact SegInv_game _ hs e (List.mem_of_mem_filter he)
           | exact hs e (List.mem_of_mem_filter he))

/-- C1: every operation of the server preserves the invariant that each
stored session has a non-empty segment list (head at index 0): the initial
store satisfies it vacuously, session creation stores a one-segment snake,
and movement handling, growth application, collision resolution, food
consumption, status checks, round restarts, the game-over reset and the tick
all preserve it. -/
theorem C1_segments_never_empty :
    (∀ (now : ℤ) (foodR : ℕ → ℝ × ℝ), SegInv (initialServer now foodR))
    ∧ (∀ env c newId st, SegInv st → SegInv (wsOpen env c newId st))
    ∧ (∀ env c data st, SegInv st → SegInv (wsMessage env c data st))
    ∧ (∀ env c st, SegInv st → SegInv (wsClose env c st))
    ∧ (∀ env st, SegInv st → SegInv (serverTick env st))
    ∧ (∀ env st, SegInv st → SegInv (startNewRound env st))
    ∧ (∀ env st, SegInv st → SegInv (checkGameStatus env st))
    ∧ (∀ env st, SegInv st → SegInv (gameOverResetTimeout env st))
    ∧ (∀ p : PlayerState, p.segments ≠ [] → (updateSnakeSegments p).segments ≠ [])
    ∧ (∀ env c st, SegInv st → SegInv (checkFoodCollisions env c st))
    ∧ (∀ env c st, SegInv st → SegInv (checkCollisions env c st)) := by
  refine ⟨?_, ?_, ?_, ?_, ?_, ?_, ?_, ?_, ?_, ?_, ?_⟩
  · intro now foodR e he
    exact absurd he (List.not_mem_nil e)
  · exact fun env c newId st hs => SegInv_wsOpen env c newId hs
  · exact fun env c data st hs => SegInv_wsMessage env c data hs
  · exact fun env c st hs => SegInv_wsClose env c hs
  · exact fun env st hs => SegInv_serverTick env hs
  · exact fun env st hs => SegInv_startNewRound env hs
  · exact fun env st hs => SegInv_checkGameStatus env hs
  · exact fun env st hs => SegInv_gameOverResetTimeout env hs
  · exact fun p hp => updateSnakeSegments_ne_nil hp
  · exact fun env c st hs => SegInv_checkFoodCollisions env c hs
  · exact fun env c st hs => SegInv_checkCollisions env c hs

theorem gflags_broadcastPlayerStates (env : Env) (st : Server) :
    (broadcastPlayerStates env st).game.roundNumber = st.game.roundNumber
    ∧ (broadcastPlayerStates env st).game.isActive = st.game.isActive
    ∧ (broadcastPlayerStates env st).game.waitingForPlayers = st.game.waitingForPlayers
    ∧ (broadcastPlayerStates env st).game.gameOver = st.game.gameOver := by
  unfold broadcastPlayerStates
  dsimp only
  split
  · exact ⟨rfl, rfl, rfl, rfl⟩
  · split <;> (try split) <;> (try split) <;> exact ⟨rfl, rfl, rfl, rfl⟩

theorem gflags_tailHitEffects1 (env : Env) (cw wa : ℕ) (st : Server) :
    (tailHitEffects1 env cw wa st).game.roundNumber = st.game.roundNumber
    ∧ (tailHitEffects1 env cw wa st).game.isActive = st.game.isActive
    ∧ (tailHitEffects1 env cw wa st).game.waitingForPlayers = st.game.waitingForPlayers
    ∧ (tailHitEffects1 env cw wa st).game.gameOver = st.game.gameOver := by
  unfold tailHitEffects1
  dsimp only
  split <;> (try split) <;> (try split) <;> exact ⟨rfl, rfl, rfl, rfl⟩

theorem gflags_tailLoop1 (env : Env) (cw wa : ℕ) (hd : Position) (st : Server)
    (l : List SnakeSegment) :
    (tailLoop1 env cw wa hd st l).game.roundNumber = st.game.roundNumber
    ∧ (tailLoop1 env cw wa hd st l).game.isActive = st.game.isActive
    ∧ (tailLoop1 env cw wa hd st l).game.waitingForPlayers = st.game.waitingForPlayers
    ∧ (tailLoop1 env cw wa hd st l).game.gameOver = st.game.gameOver := by
  induction l with
  | nil => exact ⟨rfl, rfl, rfl, rfl⟩
  | cons s rest ih =>
    unfold tailLoop1
    split
    · exact gflags_tailHitEffects1 env cw wa st
    · exact ih

theorem gflags_tailHitEffects2 (env : Env) (cw wa : ℕ) (st : Server) :
    (tailHitEffects2 env cw wa st).game.roundNumber = st.game.roundNumber
    ∧ (tailHitEffects2 env cw wa st).game.isActive = st.game.isActive
    ∧ (tailHitEffects2 env cw wa st).game.waitingForPlayers = st.game.waitingForPlayers
    ∧ (tailHitEffects2 env cw wa st).game.gameOver = st.game.gameOver := by
  unfold tailHitEffects2
  dsimp only
  split <;> exact ⟨rfl, rfl, rfl, rfl⟩

theorem gflags_tailLoop2 (env : Env) (cw wa : ℕ) (hd : Position) (st : Server)
    (l : List SnakeSegment) :
    (tailLoop2 env cw wa hd st l).game.roundNumber = st.game.roundNumber
    ∧ (tailLoop2 env cw wa hd st l).game.isActive = st.game.isActive
    ∧ (tailLoop2 env cw wa hd st l).game.waitingForPlayers = st.game.waitingForPlayers
    ∧ (tailLoop2 env cw wa hd st l).game.gameOver = st.game.gameOver := by
  induction l with
  | nil => exact ⟨rfl, rfl, rfl, rfl⟩
  | cons s rest ih =>
    unfold tailLoop2
    split
    · exact gflags_tailHitEffects2 env cw wa st
    · exact ih

theorem gflags_pairStep (env : Env) (cw : ℕ) (st : Server) (wa : ℕ) :
    (pairStep env cw st wa).game.roundNumber = st.game.roundNumber
    ∧ (pairStep env cw st wa).game.isActive = st.game.isActive
    ∧ (pairStep env cw st wa).game.waitingForPlayers = st.game.waitingForPlayers
    ∧ (pairStep env cw st wa).game.gameOver = st.game.gameOver := by
  unfold pairStep
  dsimp only
  split
  · split
    · split
      · exact ⟨rfl, rfl, rfl, rfl⟩
      · exact ⟨rfl, rfl, rfl, rfl⟩
      · split
        · exact ⟨rfl, rfl, rfl, rfl⟩
        · exact (gflags_tailLoop2 env cw wa _ _ _).imp
            (fun h => h.trans (gflags_tailLoop1 env cw wa _ _ _).1)
            (fun h => h.imp
              (fun h2 => h2.trans (gflags_tailLoop1 env cw wa _ _ _).2.1)
              (fun h2 => h2.imp
                (fun h3 => h3.trans (gflags_tailLoop1 env cw wa _ _ _).2.2.1)
                (fun h3 => h3.trans (gflags_tailLoop1 env cw wa _ _ _).2.2.2)))
    · exact ⟨rfl, rfl, rfl, rfl⟩
  · exact ⟨rfl, rfl, rfl, rfl⟩

theorem gflags_checkCollisions (env : Env) (cw : ℕ) (st : Server) :
    (checkCollisions env cw st).game.roundNumber = st.game.roundNumber
    ∧ (checkCollisions env cw st).game.isActive = st.game.isActive
    ∧ (checkCollisions env cw st).game.waitingForPlayers = st.game.waitingForPlayers
    ∧ (checkCollisions env cw st).game.gameOver = st.game.gameOver := by
  unfold checkCollisions
  generalize st.players.map (fun e => e.1) = conns
  induction conns generalizing st with
  | nil => exact ⟨rfl, rfl, rfl, rfl⟩
  | cons a t ih =>
    refine (ih (pairStep env cw st a)).imp
      (fun h => h.trans (gflags_pairStep env cw st a).1)
      (fun h => h.imp
        (fun h2 => h2.trans (gflags_pairStep env cw st a).2.1)
        (fun h2 => h2.imp
          (fun h3 => h3.trans (gflags_pairStep env cw st a).2.2.1)
          (fun h3 => h3.trans (gflags_pairStep env cw st a).2.2.2)))

theorem gflags_foodStep (env : Env) (c : ℕ) (hd : Position) (i : ℕ) (st : Server) :
    (foodStep env c hd i st).game.roundNumber = st.game.roundNumber
    ∧ (foodStep env c hd i st).game.isActive = st.game.isActive
    ∧ (foodStep env c hd i st).game.waitingForPlayers = st.game.waitingForPlayers
    ∧ (foodStep env c hd i st).game.gameOver = st.game.gameOver := by
  unfold foodStep
  dsimp only
  split
  · exact ⟨rfl, rfl, rfl, rfl⟩
  · split
    · split
      · exact ⟨rfl, rfl, rfl, rfl⟩
      · split <;> (try split) <;> split <;> (try split) <;> exact ⟨rfl, rfl, rfl, rfl⟩
    · exact ⟨rfl, rfl, rfl, rfl⟩

theorem gflags_foodLoop (env : Env) (c : ℕ) (hd : Position) (n : ℕ) (st : Server) :
    (foodLoop env c hd n st).game.roundNumber = st.game.roundNumber
    ∧ (foodLoop env c hd n st).game.isActive = st.game.isActive
    ∧ (foodLoop env c hd n st).game.waitingForPlayers = st.game.waitingForPlayers
    ∧ (foodLoop env c hd n st).game.gameOver = st.game.gameOver := by
  induction n generalizing st with
  | zero => exact gflags_foodStep env c hd 0 st
  | succ n ih =>
    unfold foodLoop
    refine (ih (foodStep env c hd (n + 1) st)).imp
      (fun h => h.trans (gflags_foodStep env c hd (n + 1) st).1)
      (fun h => h.imp
        (fun h2 => h2.trans (gflags_foodStep env c hd (n + 1) st).2.1)
        (fun h2 => h2.imp
          (fun h3 => h3.trans (gflags_foodStep env c hd (n + 1) st).2.2.1)
          (fun h3 => h3.trans (gflags_foodStep env c hd (n + 1) st).2.2.2)))

theorem gflags_checkFoodCollisions (env : Env) (c : ℕ) (st : Server) :
    (checkFoodCollisions env c st).game.roundNumber = st.game.roundNumber
    ∧ (checkFoodCollisions env c st).game.isActive = st.game.isActive
    ∧ (checkFoodCollisions env c st).game.waitingForPlayers = st.game.waitingForPlayers
    ∧ (checkFoodCollisions env c st).game.gameOver = st.game.gameOver := by
  unfold checkFoodCollisions
  split
  · exact ⟨rfl, rfl, rfl, rfl⟩
  · split
    · exact ⟨rfl, rfl, rfl, rfl⟩
    · split
      · exact ⟨rfl, rfl, rfl, rfl⟩
      · split
        · exact ⟨rfl, rfl, rfl, rfl⟩
        · exact gflags_foodLoop env c _ _ _

theorem roundNumber_startNewRound (env : Env) (st : Server) :
    (startNewRound env st).game.roundNumber =
      st.game.roundNumber +
        (if st.game.gameOver = true ∧ MIN_PLAYERS_TO_START ≤ st.players.length then 1
        else 0) := by
  unfold startNewRound
  dsimp only
  split
  next h =>
    rw [if_neg fun hc => absurd hc.2 (Nat.not_le.mpr h)]
    rfl
  next h =>
    split
    next hgo =>
      rw [if_pos ⟨hgo, Nat.le_of_not_lt h⟩, (gflags_broadcastPlayerStates env _).1]
      rfl
    next hgo =>
      rw [if_neg fun hc => absurd hc.1 hgo, (gflags_broadcastPlayerStates env _).1]
      rfl

theorem gameOver_startNewRound (env : Env) (st : Server) :
    (startNewRound env st).game.gameOver =
      (st.game.gameOver && decide (st.players.length < MIN_PLAYERS_TO_START)) := by
  unfold startNewRound
  dsimp only
  split
  next h =>
    rw [decide_eq_true h, Bool.and_true]
    rfl
  next h =>
    rw [decide_eq_false (fun hc => absurd hc h), Bool.and_false]
    split
    next hgo =>
      rw [(gflags_broadcastPlayerStates env _).2.2.2]
      rfl
    next hgo =>
      rw [(gflags_broadcastPlayerStates env _).2.2.2]
      dsimp only
      exact Bool.eq_false_iff.mpr hgo

theorem game_sendTo (st : Server) (c : ℕ) (m : Msg) : (sendTo st c m).game = st.game := rfl

theorem game_broadcast (st : Server) (m : Msg) : (broadcast st m).game = st.game := rfl

theorem game_schedule (st : Server) (d : ℕ) (k : TimerKind) :
    (schedule st d k).game = st.game := rfl

theorem game_reapInactive (env : Env) (st : Server) :
    (reapInactive env st).game = st.game := rfl

theorem game_mapP (st : Server) (c : ℕ) (f : PlayerState → PlayerState) :
    (mapP st c f).game = st.game := rfl

theorem roundNumber_broadcastAnnouncement (env : Env) (k : AnnKind) (a : AnnType)
    (d : ℕ) (st : Server) :
    (broadcastAnnouncement env k a d st).game.roundNumber = st.game.roundNumber := rfl

theorem gameOver_broadcastAnnouncement (env : Env) (k : AnnKind) (a : AnnType)
    (d : ℕ) (st : Server) :
    (broadcastAnnouncement env k a d st).game.gameOver = st.game.gameOver := rfl

theorem bool_and_le_left (x y : Bool) : (x && y) ≤ x := by
  cases x <;> cases y <;> decide

theorem roundNumber_mono_checkGameStatus (env : Env) (st : Server) :
    st.game.roundNumber ≤ (checkGameStatus env st).game.roundNumber := by
  unfold checkGameStatus
  dsimp only
  split
  · exact Nat.le_refl _
  · split
    · rw [roundNumber_startNewRound]
      exact Nat.le_add_right _ _
    · split
      · exact Nat.le_refl _
      · split
        · exact Nat.le_refl _
        · split
          · split
            · split <;> exact Nat.le_refl _
            · exact Nat.le_refl _
          · split
            · exact Nat.le_refl _
            · exact Nat.le_refl _

theorem gameOver_le_checkGameStatus (env : Env) (st : Server) :
    (checkGameStatus env st).game.gameOver ≤ st.game.gameOver := by
  unfold checkGameStatus
  dsimp only
  split
  · exact le_refl _
  · split
    · rw [gameOver_startNewRound]
      exact bool_and_le_left _ _
    · split
      · exact le_refl _
      · split
        · exact le_refl _
        · split
          · split
            · split <;> exact le_refl _
            · exact le_refl _
          · split
            · exact le_refl _
            · exact le_refl _

theorem roundNumber_gameOverResetTimeout (env : Env) (st : Server) :
    (gameOverResetTimeout env st).game.roundNumber =
      st.game.roundNumber + (if MIN_PLAYERS_TO_START ≤ st.players.length then 1 else 0) := by
  unfold gameOverResetTimeout
  dsimp only
  rw [roundNumber_startNewRound]
  simp only [List.length_map]
  congr 1
  by_cases h : MIN_PLAYERS_TO_START ≤ st.players.length
  · rw [if_pos ⟨by trivial, h⟩, if_pos h]
  · rw [if_neg fun hc => absurd hc.2 h, if_neg h]

theorem roundNumber_mono_wsOpen (env : Env) (c newId : ℕ) (st : Server) :
    st.game.roundNumber ≤ (wsOpen env c newId st).game.roundNumber := by
  unfold wsOpen
  dsimp only
  split <;> (try split) <;>
    first
      | (rw [roundNumber_startNewRound]
         refine le_trans (le_of_eq ?_) (Nat.le_add_right _ _)
         rw [show ∀ st2 : Server, ∀ g : GameState, ({ st2 with game := g } : Server).game = g
             from fun _ _ => rfl]
         dsimp only
         rw [(gflags_broadcastPlayerStates env _).1, game_sendTo]
         rfl)
      | (rw [(gflags_broadcastPlayerStates env _).1, game_sendTo]
         exact Nat.le_refl _)

theorem gameOver_le_wsOpen (env : Env) (c newId : ℕ) (st : Server) :
    (wsOpen env c newId st).game.gameOver ≤ st.game.gameOver := by
  unfold wsOpen
  dsimp only
  split <;> (try split) <;>
    first
      | (rw [gameOver_startNewRound]
         refine le_trans (bool_and_le_left _ _) (le_of_eq ?_)
         rw [show ∀ st2 : Server, ∀ g : GameState, ({ st2 with game := g } : Server).game = g
             from fun _ _ => rfl]
         dsimp only
         rw [(gflags_broadcastPlayerStates env _).2.2.2, game_sendTo]
         rfl)
      | (rw [(gflags_broadcastPlayerStates env _).2.2.2, game_sendTo]
         exact le_refl _)

theorem roundNumber_wsClose (env : Env) (c : ℕ) (st : Server) :
    (wsClose env c st).game.roundNumber = st.game.roundNumber := by
  unfold wsClose
  dsimp only
  rw [game_schedule, (gflags_broadcastPlayerStates env _).1]

theorem gameOver_wsClose (env : Env) (c : ℕ) (st : Server) :
    (wsClose env c st).game.gameOver = st.game.gameOver := by
  unfold wsClose
  dsimp only
  rw [game_schedule, (gflags_broadcastPlayerStates env _).2.2.2]

theorem roundNumber_mono_serverTick (env : Env) (st : Server) :
    st.game.roundNumber ≤ (serverTick env st).game.roundNumber := by
  unfold serverTick
  dsimp only
  have hbase : ∀ st2 : Server, st.game.roundNumber ≤ st2.game.roundNumber →
      st.game.roundNumber ≤
        (if (st2.players.filter fun e =>
              decide (env.now - e.2.lastUpdate > INACTIVE_TIMEOUT_MS)).length > 0 then
          checkGameStatus env (broadcastPlayerStates env (reapInactive env st2))
        else reapInactive env st2).game.roundNumber := by
    intro st2 h2
    split
    · refine le_trans ?_ (roundNumber_mono_checkGameStatus env _)
      rw [(gflags_broadcastPlayerStates env _).1, game_reapInactive]
      exact h2
    · rw [game_reapInactive]
      exact h2
  split
  · apply hbase
    rw [roundNumber_startNewRound]
    exact Nat.le_add_right _ _
  · apply hbase
    exact Nat.le_refl _

theorem gameOver_le_serverTick (env : Env) (st : Server) :
    (serverTick env st).game.gameOver ≤ st.game.gameOver := by
  unfold serverTick
  dsimp only
  have hbase : ∀ st2 : Server, st2.game.gameOver ≤ st.game.gameOver →
      (if (st2.players.filter fun e =>
            decide (env.now - e.2.lastUpdate > INACTIVE_TIMEOUT_MS)).length > 0 then
        checkGameStatus env (broadcastPlayerStates env (reapInactive env st2))
      else reapInactive env st2).game.gameOver ≤ st.game.gameOver := by
    intro st2 h2
    split
    · refine le_trans (gameOver_le_checkGameStatus env _) ?_
      rw [(gflags_broadcastPlayerStates env _).2.2.2, game_reapInactive]
      exact h2
    · rw [game_reapInactive]
      exact h2
  split
  · apply hbase
    rw [gameOver_startNewRound]
    exact bool_and_le_left _ _
  · apply hbase
    exact le_refl _

theorem roundNumber_mono_wsMessage (env : Env) (c : ℕ) (data : Inbound) (st : Server) :
    st.game.roundNumber ≤ (wsMessage env c data st).game.roundNumber := by
  unfold wsMessage
  dsimp only
  split
  · rw [roundNumber_startNewRound, roundNumber_broadcastAnnouncement]
    exact Nat.le_add_right _ _
  · split
    · exact Nat.le_refl _
    · split
      · split
        · rw [roundNumber_startNewRound, roundNumber_broadcastAnnouncement]
          exact Nat.le_add_right _ _
        · exact Nat.le_refl _
      · split
        · exact Nat.le_refl _
        · split
          · rw [roundNumber_startNewRound, roundNumber_broadcastAnnouncement]
            exact Nat.le_add_right _ _
          · split
            · exact Nat.le_refl _
            · rw [(gflags_broadcastPlayerStates env _).1]
              refine le_trans ?_ (roundNumber_mono_checkGameStatus env _)
              rw [(gflags_checkCollisions env c _).1, (gflags_checkFoodCollisions env c _).1,
                game_mapP]
              split <;> exact Nat.le_refl _

theorem gameOver_le_wsMessage (env : Env) (c : ℕ) (data : Inbound) (st : Server) :
    (wsMessage env c data st).game.gameOver ≤ st.game.gameOver := by
  unfold wsMessage
  dsimp only
  split
  · rw [gameOver_startNewRound, gameOver_broadcastAnnouncement]
    exact bool_and_le_left _ _
  · split
    · exact le_refl _
    · split
      · split
        · rw [gameOver_startNewRound, gameOver_broadcastAnnouncement]
          exact bool_and_le_left _ _
        · exact le_refl _
      · split
        · exact le_refl _
        · split
          · rw [gameOver_startNewRound, gameOver_broadcastAnnouncement]
            exact bool_and_le_left _ _
          · split
            · exact le_refl _
            · rw [(gflags_broadcastPlayerStates env _).2.2.2]
              refine le_trans (gameOver_le_checkGameStatus env _) ?_
              rw [(gflags_checkCollisions env c _).2.2.2,
                (gflags_checkFoodCollisions env c _).2.2.2, game_mapP]
              split <;> exact le_refl _

/-- C3: the round number is non-decreasing under every server operation; it
is incremented exactly when `startNewRound` runs with the `gameOver` flag
set and enough players (the deferred game-over path), in which case the flag
is cleared, so each game-over yields exactly one increment; the game-over
reset timeout increments it exactly once when enough players are present;
ordinary respawn restarts (`startNewRound` with `gameOver = false`) never
increment it; and no operation other than the reset timeout ever raises the
`gameOver` flag. -/
theorem C3_roundNumber_monotone_increment (env : Env) (st : Server) (c newId : ℕ)
    (data : Inbound) (now : ℤ) (foodR : ℕ → ℝ × ℝ) :
    (initialServer now foodR).game.roundNumber = 1
    ∧ (startNewRound env st).game.roundNumber =
        st.game.roundNumber +
          (if st.game.gameOver = true ∧ MIN_PLAYERS_TO_START ≤ st.players.length then 1
          else 0)
    ∧ (startNewRound env st).game.gameOver =
        (st.game.gameOver && decide (st.players.length < MIN_PLAYERS_TO_START))
    ∧ (gameOverResetTimeout env st).game.roundNumber =
        st.game.roundNumber + (if MIN_PLAYERS_TO_START ≤ st.players.length then 1 else 0)
    ∧ st.game.roundNumber ≤ (wsOpen env c newId st).game.roundNumber
    ∧ st.game.roundNumber ≤ (wsMessage env c data st).game.roundNumber
    ∧ (wsClose env c st).game.roundNumber = st.game.roundNumber
    ∧ st.game.roundNumber ≤ (serverTick env st).game.roundNumber
    ∧ st.game.roundNumber ≤ (checkGameStatus env st).game.roundNumber
    ∧ (checkCollisions env c st).game.roundNumber = st.game.roundNumber
    ∧ (checkFoodCollisions env c st).game.roundNumber = st.game.roundNumber
    ∧ (wsOpen env c newId st).game.gameOver ≤ st.game.gameOver
    ∧ (wsMessage env c data st).game.gameOver ≤ st.game.gameOver
    ∧ (wsClose env c st).game.gameOver = st.game.gameOver
    ∧ (serverTick env st).game.gameOver ≤ st.game.gameOver
    ∧ (checkGameStatus env st).game.gameOver ≤ st.game.gameOver :=
  ⟨rfl, roundNumber_startNewRound env st, gameOver_startNewRound env st,
    roundNumber_gameOverResetTimeout env st, roundNumber_mono_wsOpen env c newId st,
    roundNumber_mono_wsMessage env c data st, roundNumber_wsClose env c st,
    roundNumber_mono_serverTick env st, roundNumber_mono_checkGameStatus env st,
    (gflags_checkCollisions env c st).1, (gflags_checkFoodCollisions env c st).1,
    gameOver_le_wsOpen env c newId st, gameOver_le_wsMessage env c data st,
    gameOver_wsClose env c st, gameOver_le_serverTick env st,
    gameOver_le_checkGameStatus env st⟩

/-- C7: during a session update, the kinematics step first applies pending
growth (when the counter is positive, exactly one segment is appended at the
current tail position and the counter is decremented), and then every
non-head segment is eased with respect to its (already updated) predecessor:
a segment farther than 1.2 times the target inter-segment distance is moved
halfway toward the point at exactly the target distance from the predecessor,
and a segment within the threshold is left unchanged. -/
theorem C7_kinematics_growth_then_ease (p : PlayerState) (prevSeg cur : SnakeSegment) :
    updateSnakeSegments p = applyChain (applyGrowth p)
    ∧ (applyGrowth p).segments =
        p.segments ++
          (if p.growth > 0 then
            (p.segments.getLast?.map fun s => [SnakeSegment.mk s.position]).getD []
          else [])
    ∧ (applyGrowth p).growth =
        (if p.growth > 0 ∧ p.segments ≠ [] then p.growth - 1 else p.growth)
    ∧ (updateSnakeSegments p).segments.head? = (applyGrowth p).segments.head?
    ∧ (updateSnakeSegments p).segments.tail =
        List.zipWith easeSegment (updateSnakeSegments p).segments.dropLast
          (applyGrowth p).segments.tail
    ∧ easeSegment prevSeg cur =
        (if distPow prevSeg.position cur.position > SEGMENT_DISTANCE * 1.2 then
          specEase prevSeg cur
        else cur) := by
  have hdecomp : updateSnakeSegments p = applyChain (applyGrowth p) := rfl
  refine ⟨hdecomp, applyGrowth_segments p, applyGrowth_growth p, ?_, ?_, ?_⟩
  · rw [hdecomp]; exact applyChain_head (applyGrowth p)
  · rw [hdecomp]; exact applyChain_tail_zipWith (applyGrowth p)
  · exact easeSegment_eq_specEase prevSeg cur

theorem C1_segments_never_empty_witness :
    SegInv (initialServer 0 fun _ => (0, 0)) ∧
    SegInv (wsOpen env0 0 1 (initialServer 0 fun _ => (0, 0))) :=
  ⟨C1_segments_never_empty.1 0 _,
   C1_segments_never_empty.2.1 env0 0 1 _ (fun e he => absurd he (List.not_mem_nil e))⟩

/-- C2 fails on the code: running the game-over reset timeout on a reachable
post-win state with two connected sessions leaves `isActive` and
`waitingForPlayers` simultaneously true, because the timeout raises
`waitingForPlayers` and `startNewRound` sets `isActive` without ever clearing
`waitingForPlayers` on its success path. -/
theorem C2_reset_timeout_reaches_active_and_waiting :
    (gameOverResetTimeout env0 stPostWin).game.isActive = true
    ∧ (gameOverResetTimeout env0 stPostWin).game.waitingForPlayers = true := by
  constructor <;> rfl

theorem kills_score_mem_startNewRound (env : Env) (st : Server) :
    ∀ e ∈ (startNewRound env st).players,
      ∃ a ∈ st.players, e.2.kills = a.2.kills ∧ e.2.score = a.2.score := by
  unfold startNewRound
  dsimp only
  split
  · intro e he
    exact ⟨e, he, rfl, rfl⟩
  · split
    · intro e he
      rw [players_broadcastPlayerStates] at he
      obtain ⟨a, ha, rfl⟩ := List.mem_map.mp he
      exact ⟨a.2, List.getElem?_mem (List.mem_enum_iff_getElem?.mp ha), rfl, rfl⟩
    · intro e he
      rw [players_broadcastPlayerStates] at he
      obtain ⟨a, ha, rfl⟩ := List.mem_map.mp he
      refine ⟨a.2, List.getElem?_mem (List.mem_enum_iff_getElem?.mp ha), ?_, ?_⟩ <;>
        (unfold respawnDeadPlayer; split <;> rfl)

theorem all_kills_score_zero_after_reset (env : Env) (st : Server) :
    ((gameOverResetTimeout env st).players.all
      fun e => e.2.kills == 0 && e.2.score == 0) = true := by
  rw [List.all_eq_true]
  intro e he
  obtain ⟨a, ha, hk, hsc⟩ := kills_score_mem_startNewRound env _ e he
  obtain ⟨b, hb, rfl⟩ := List.mem_map.mp ha
  rw [hk, hsc]
  rfl

/-- C4 fails on the code in its "exactly one gameOver broadcast" part: from a
post-win freeze state, one inbound movement message re-activates the round
through the `!isActive` restart branch with the winner still holding
`WINNING_KILLS` kills, and the next status check broadcasts `gameOver` a
second time for the same win and schedules a second reset timer.  The second
part of the claim does hold: the reset timeout zeroes every session's kills
and score. -/
theorem C4_second_gameOver_broadcast_for_same_win (env : Env) (st : Server) :
    stMid.game.isActive = true
    ∧ ((getP stMid 0).map fun p => p.kills) = some WINNING_KILLS
    ∧ ((checkGameStatus env0 stMid).outbox.filter fun e => isGameOverMsg e.2).length = 2
    ∧ (checkGameStatus env0 stMid).timers =
        [(5000, TimerKind.gameOverResetTimer), (5000, TimerKind.gameOverResetTimer)]
    ∧ ((gameOverResetTimeout env st).players.all
        fun e => e.2.kills == 0 && e.2.score == 0) = true :=
  ⟨rfl, rfl, by decide, by decide, all_kills_score_zero_after_reset env st⟩

/-- C9 fails on the code: with a single connected session and an inactive
game, a `forceStart` message does not begin a round — the handler returns at
the inactivity guard before the `forceStart` dispatch is ever reached, so the
player-count gate is not bypassed. -/
theorem C9_forceStart_below_minimum_does_not_start :
    (wsMessage env0 0 Inbound.forceStart stWait1).game.isActive = false := by
  rfl

/-- C9 amended: a `forceStart` message never yields an active round while
fewer than `MIN_PLAYERS_TO_START` sessions are connected; when the game is
inactive the dispatch is unreachable (the handler returns first), and even
when it runs, `startNewRound` re-applies the player-count gate. -/
theorem C9_forceStart_never_bypasses_gate (env : Env) (c : ℕ) (st : Server)
    (hlen : st.players.length < MIN_PLAYERS_TO_START)
    (hact : st.game.isActive = false) :
    (wsMessage env c Inbound.forceStart st).game.isActive = false := by
  unfold wsMessage
  dsimp only
  rw [if_neg (fun hc => absurd hc.2.2 (Nat.not_le.mpr hlen))]
  cases hp : getP st c with
  | none => simp only [hp]; exact hact
  | some p =>
    simp only [hp]
    rw [if_pos hact, if_neg (Nat.not_le.mpr hlen)]
    exact hact

theorem C9_forceStart_never_bypasses_gate_witness :
    stWait1.players.length < MIN_PLAYERS_TO_START
    ∧ stWait1.game.isActive = false
    ∧ (wsMessage env0 0 Inbound.forceStart stWait1).game.isActive = false :=
  ⟨by decide, rfl, C9_forceStart_never_bypasses_gate env0 0 stWait1 (by decide) rfl⟩

theorem distPow_lt_sqrt_iff {c : ℝ} (hc : 0 ≤ c) (p q : Position) :
    distPow p q < c ↔ (p.x - q.x) ^ 2 + (p.y - q.y) ^ 2 < c ^ 2 := by
  unfold distPow
  rw [show c = Real.sqrt (c ^ 2) from (Real.sqrt_sq hc).symm]
  rw [Real.sqrt_lt_sqrt_iff (by positivity)]
  rw [Real.sqrt_sq hc]

theorem distPow_lt_collision_iff (p q : Position) :
    distPow p q < COLLISION_DISTANCE ↔ (p.x - q.x) ^ 2 + (p.y - q.y) ^ 2 < 400 := by
  rw [distPow_lt_sqrt_iff (by norm_num [COLLISION_DISTANCE, SEGMENT_RADIUS])]
  norm_num [COLLISION_DISTANCE, SEGMENT_RADIUS]

theorem distPow_lt_food_iff (p q : Position) :
    distPow p q < SEGMENT_RADIUS + FOOD_RADIUS ↔
      (p.x - q.x) ^ 2 + (p.y - q.y) ^ 2 < 225 := by
  rw [distPow_lt_sqrt_iff (by norm_num [SEGMENT_RADIUS, FOOD_RADIUS])]
  norm_num [SEGMENT_RADIUS, FOOD_RADIUS]

theorem tailLoop1_of_no_hit (env : Env) (cw wa : ℕ) (hd : Position) (st : Server)
    {l : List SnakeSegment}
    (h : ∀ s ∈ l, ¬ distPow hd s.position < COLLISION_DISTANCE) :
    tailLoop1 env cw wa hd st l = st := by
  induction l with
  | nil => rfl
  | cons s rest ih =>
    unfold tailLoop1
    rw [if_neg (h s (List.mem_cons_self s rest))]
    exact ih fun x hx => h x (List.mem_cons_of_mem s hx)

theorem tailLoop1_of_hit (env : Env) (cw wa : ℕ) (hd : Position) (st : Server)
    {u : List SnakeSegment} {s : SnakeSegment} (v : List SnakeSegment)
    (hu : ∀ x ∈ u, ¬ distPow hd x.position < COLLISION_DISTANCE)
    (hs : distPow hd s.position < COLLISION_DISTANCE) :
    tailLoop1 env cw wa hd st (u ++ s :: v) = tailHitEffects1 env cw wa st := by
  induction u with
  | nil =>
    unfold tailLoop1
    rw [List.nil_append]
    exact if_pos hs
  | cons x xs ih =>
    rw [List.cons_append]
    unfold tailLoop1
    rw [if_neg (hu x (List.mem_cons_self x xs))]
    exact ih fun y hy => hu y (List.mem_cons_of_mem x hy)

theorem tailLoop2_of_no_hit (env : Env) (cw wa : ℕ) (hd : Position) (st : Server)
    {l : List SnakeSegment}
    (h : ∀ s ∈ l, ¬ distPow hd s.position < COLLISION_DISTANCE) :
    tailLoop2 env cw wa hd st l = st := by
  induction l with
  | nil => rfl
  | cons s rest ih =>
    unfold tailLoop2
    rw [if_neg (h s (List.mem_cons_self s rest))]
    exact ih fun x hx => h x (List.mem_cons_of_mem s hx)

theorem tailLoop2_of_hit (env : Env) (cw wa : ℕ) (hd : Position) (st : Server)
    {u : List SnakeSegment} {s : SnakeSegment} (v : List SnakeSegment)
    (hu : ∀ x ∈ u, ¬ distPow hd x.position < COLLISION_DISTANCE)
    (hs : distPow hd s.position < COLLISION_DISTANCE) :
    tailLoop2 env cw wa hd st (u ++ s :: v) = tailHitEffects2 env cw wa st := by
  induction u with
  | nil =>
    unfold tailLoop2
    rw [List.nil_append]
    exact if_pos hs
  | cons x xs ih =>
    rw [List.cons_append]
    unfold tailLoop2
    rw [if_neg (hu x (List.mem_cons_self x xs))]
    exact ih fun y hy => hu y (List.mem_cons_of_mem x hy)

theorem pairStep_self (env : Env) (cw : ℕ) (st : Server) :
    pairStep env cw st cw = st := by
  unfold pairStep
  dsimp only
  split
  · rw [if_neg fun hc => hc.1 rfl]
  · rfl

theorem pairStep_tailHit1 (env : Env) (cw wa : ℕ) (st : Server)
    {a b : PlayerState} {hA hC : SnakeSegment} {tA tC u v : List SnakeSegment}
    {s : SnakeSegment}
    (hgA : getP st wa = some a) (hgC : getP st cw = some b)
    (hne : wa ≠ cw) (halive : a.alive = true)
    (hAsegs : a.segments = hA :: tA) (hCsegs : b.segments = hC :: tC)
    (hheads : ¬ distPow hC.position hA.position < COLLISION_DISTANCE)
    (htA : tA = u ++ s :: v)
    (hu : ∀ x ∈ u, ¬ distPow hC.position x.position < COLLISION_DISTANCE)
    (hs : distPow hC.position s.position < COLLISION_DISTANCE)
    (hrev : ∀ x ∈ tC, ¬ distPow hA.position x.position < COLLISION_DISTANCE) :
    pairStep env cw st wa = tailHitEffects1 env cw wa st := by
  unfold pairStep
  split
  · rename_i a2 b2 heq1 heq2
    rw [hgA] at heq1
    rw [hgC] at heq2
    obtain rfl : a2 = a := by injection heq1 with h; exact h.symm
    obtain rfl : b2 = b := by injection heq2 with h; exact h.symm
    rw [if_pos ⟨hne, halive, by rw [hAsegs]; exact List.cons_ne_nil hA tA⟩]
    rw [hAsegs, hCsegs]
    simp only [List.head?_cons, List.tail_cons]
    rw [if_neg hheads]
    rw [htA, tailLoop1_of_hit env cw wa hC.position st v hu hs]
    exact tailLoop2_of_no_hit env cw wa hA.position _ hrev
  · rename_i h
    exact absurd (h a b) (by rw [hgA, hgC]; exact fun hc => hc rfl rfl)

theorem pairStep_tailHit2 (env : Env) (cw wa : ℕ) (st : Server)
    {a b : PlayerState} {hA hC : SnakeSegment} {tA tC u v : List SnakeSegment}
    {s : SnakeSegment}
    (hgA : getP st wa = some a) (hgC : getP st cw = some b)
    (hne : wa ≠ cw) (halive : a.alive = true)
    (hAsegs : a.segments = hA :: tA) (hCsegs : b.segments = hC :: tC)
    (hheads : ¬ distPow hC.position hA.position < COLLISION_DISTANCE)
    (hfwd : ∀ x ∈ tA, ¬ distPow hC.position x.position < COLLISION_DISTANCE)
    (htC : tC = u ++ s :: v)
    (hu : ∀ x ∈ u, ¬ distPow hA.position x.position < COLLISION_DISTANCE)
    (hs : distPow hA.position s.position < COLLISION_DISTANCE) :
    pairStep env cw st wa = tailHitEffects2 env cw wa st := by
  unfold pairStep
  split
  · rename_i a2 b2 heq1 heq2
    rw [hgA] at heq1
    rw [hgC] at heq2
    obtain rfl : a2 = a := by injection heq1 with h; exact h.symm
    obtain rfl : b2 = b := by injection heq2 with h; exact h.symm
    rw [if_pos ⟨hne, halive, by rw [hAsegs]; exact List.cons_ne_nil hA tA⟩]
    rw [hAsegs, hCsegs]
    simp only [List.head?_cons, List.tail_cons]
    rw [if_neg hheads]
    rw [tailLoop1_of_no_hit env cw wa hC.position st hfwd]
    rw [htC]
    exact tailLoop2_of_hit env cw wa hA.position st v hu hs
  · rename_i h
    exact absurd (h a b) (by rw [hgA, hgC]; exact fun hc => hc rfl rfl)

theorem tailHitEffects1_pair (env : Env) (cM cB : ℕ) (M B : PlayerState)
    (g : GameState) (recent : List Announcement) (ob : List (ℕ × Msg))
    (tm : List (ℕ × TimerKind)) (hne : cM ≠ cB) :
    getP (tailHitEffects1 env cM cB ⟨[(cM, M), (cB, B)], g, recent, ob, tm⟩) cM =
        some { M with alive := false }
    ∧ getP (tailHitEffects1 env cM cB ⟨[(cM, M), (cB, B)], g, recent, ob, tm⟩) cB =
        some { B with kills := B.kills + 1, score := B.score + 5,
                      growth := B.growth + KILL_SEGMENTS_GROWTH }
    ∧ (tailHitEffects1 env cM cB ⟨[(cM, M), (cB, B)], g, recent, ob, tm⟩).outbox.filter
          (fun e => !(isAnnouncementMsg e.2)) =
        ob.filter (fun e => !(isAnnouncementMsg e.2)) ++
          [(cM, Msg.diedMsg DeathReason.tailCollision (some B.id)),
           (cB, Msg.killMsg (B.kills + 1) (B.score + 5) (some KILL_SEGMENTS_GROWTH) M.id)] := by
  have hbMM : (cM == cM) = true := beq_self_eq_true cM
  have hbBB : (cB == cB) = true := beq_self_eq_true cB
  have hbMB : (cM == cB) = false := beq_eq_false_iff_ne.mpr hne
  have hbBM : (cB == cM) = false := beq_eq_false_iff_ne.mpr (Ne.symm hne)
  unfold tailHitEffects1
  simp only [mapP, getP, List.map_cons, List.map_nil, hbMM, hbBB, hbMB, hbBM,
    Bool.false_eq_true, if_true, if_false, List.find?, Option.map_some']
  split <;> (try split) <;>
    simp [getP, List.find?, hbMM, hbBB, hbMB, hbBM, broadcastAnnouncement, broadcast,
      sendTo, isAnnouncementMsg, List.filter_append, List.filter]

/-- C6: when the mover's head is within the collision distance of some
non-head segment of another alive session (heads apart, and no reverse tail
hit), the mover is marked dead, the other session gains exactly one kill,
+5 score and +`KILL_SEGMENTS_GROWTH` growth, the mover is sent a `died`
message with `killedBy` set to the other's id, and the other is sent a
`kill` message; the hypotheses fix only the first matching tail segment
(lowest index) — the segments after it (`v`) are unconstrained and the
resolution happens exactly once. -/
theorem C6_mover_head_hits_tail (env : Env) (cM cB : ℕ) (M B : PlayerState)
    (g : GameState) (recent : List Announcement) (ob : List (ℕ × Msg))
    (tm : List (ℕ × TimerKind)) (hA hC : SnakeSegment)
    (tA tC u v : List SnakeSegment) (s : SnakeSegment)
    (hne : cM ≠ cB) (halive : B.alive = true)
    (hM : M.segments = hC :: tC) (hB : B.segments = hA :: tA)
    (hheads : ¬ distPow hC.position hA.position < COLLISION_DISTANCE)
    (htA : tA = u ++ s :: v)
    (hu : ∀ x ∈ u, ¬ distPow hC.position x.position < COLLISION_DISTANCE)
    (hs : distPow hC.position s.position < COLLISION_DISTANCE)
    (hrev : ∀ x ∈ tC, ¬ distPow hA.position x.position < COLLISION_DISTANCE) :
    getP (checkCollisions env cM ⟨[(cM, M), (cB, B)], g, recent, ob, tm⟩) cM =
        some { M with alive := false }
    ∧ getP (checkCollisions env cM ⟨[(cM, M), (cB, B)], g, recent, ob, tm⟩) cB =
        some { B with kills := B.kills + 1, score := B.score + 5,
                      growth := B.growth + KILL_SEGMENTS_GROWTH }
    ∧ (checkCollisions env cM ⟨[(cM, M), (cB, B)], g, recent, ob, tm⟩).outbox.filter
          (fun e => !(isAnnouncementMsg e.2)) =
        ob.filter (fun e => !(isAnnouncementMsg e.2)) ++
          [(cM, Msg.diedMsg DeathReason.tailCollision (some B.id)),
           (cB, Msg.killMsg (B.kills + 1) (B.score + 5) (some KILL_SEGMENTS_GROWTH) M.id)] := by
  have hgM : getP ⟨[(cM, M), (cB, B)], g, recent, ob, tm⟩ cM = some M := by
    unfold getP
    rw [List.find?_cons_of_pos _ (by simp)]
    rfl
  have hgB : getP ⟨[(cM, M), (cB, B)], g, recent, ob, tm⟩ cB = some B := by
    unfold getP
    rw [List.find?_cons_of_neg _ (by simp [beq_eq_false_iff_ne.mpr hne]),
      List.find?_cons_of_pos _ (by simp)]
    rfl
  have hfold : checkCollisions env cM ⟨[(cM, M), (cB, B)], g, recent, ob, tm⟩ =
      pairStep env cM (pairStep env cM ⟨[(cM, M), (cB, B)], g, recent, ob, tm⟩ cM) cB :=
    rfl
  rw [hfold, pairStep_self,
    pairStep_tailHit1 env cM cB _ hgB hgM (Ne.symm hne) halive hB hM hheads htA hu hs hrev]
  exact tailHitEffects1_pair env cM cB M B g recent ob tm hne

theorem C6_mover_head_hits_tail_witness :
    distPow ⟨0, 900⟩ ⟨10, 900⟩ < COLLISION_DISTANCE
    ∧ ¬ distPow ⟨0, 900⟩ ⟨100, 900⟩ < COLLISION_DISTANCE
    ∧ getP (checkCollisions env0 0 ⟨[(0, pM6), (1, pB6)], g6, [], [], []⟩) 0 =
        some { pM6 with alive := false }
    ∧ getP (checkCollisions env0 0 ⟨[(0, pM6), (1, pB6)], g6, [], [], []⟩) 1 =
        some { pB6 with kills := pB6.kills + 1, score := pB6.score + 5,
                        growth := pB6.growth + KILL_SEGMENTS_GROWTH } := by
  have hhit : distPow ⟨0, 900⟩ ⟨10, 900⟩ < COLLISION_DISTANCE := by
    rw [distPow_lt_collision_iff]
    norm_num
  have hmiss : ¬ distPow ⟨0, 900⟩ ⟨100, 900⟩ < COLLISION_DISTANCE := by
    rw [distPow_lt_collision_iff]
    norm_num
  have hmain := C6_mover_head_hits_tail env0 0 1 pM6 pB6 g6 [] [] []
    ⟨⟨100, 900⟩⟩ ⟨⟨0, 900⟩⟩ [⟨⟨10, 900⟩⟩] [] [] [] ⟨⟨10, 900⟩⟩
    (by decide) rfl rfl rfl hmiss rfl (by intro x hx; cases hx) hhit
    (by intro x hx; cases hx)
  exact ⟨hhit, hmiss, hmain.1, hmain.2.1⟩

/-- C10 fails on the code: in the reverse direction (other player's head
against the mover's tail), the emitted `kill` message has no growth field —
only kills, score and victim. -/
theorem C10_reverse_kill_message_lacks_growth :
    ((checkCollisions env0 0 stC10).outbox.filter fun e => isKillMsg e.2) =
      [(0, Msg.killMsg 1 1 none 21)] := by
  have hheads : ¬ distPow (⟨0, 900⟩ : Position) ⟨35, 900⟩ < COLLISION_DISTANCE := by
    rw [distPow_lt_collision_iff]
    norm_num
  have hs : distPow (⟨35, 900⟩ : Position) ⟨30, 900⟩ < COLLISION_DISTANCE := by
    rw [distPow_lt_collision_iff]
    norm_num
  have hfold : checkCollisions env0 0 stC10 =
      pairStep env0 0 (pairStep env0 0 stC10 0) 1 := rfl
  rw [hfold, pairStep_self,
    pairStep_tailHit2 env0 0 1 stC10 (a := pB10) (b := pM10) (u := [])
      (v := ([] : List SnakeSegment)) rfl rfl (by decide) rfl rfl rfl hheads
      (by intro x hx; cases hx) rfl (by intro x hx; cases hx) hs]
  rfl

/-- C10 amended: the mover-direction `kill` message carries all four fields
(kills, score, growth = `KILL_SEGMENTS_GROWTH`, victim); the reverse-direction
`kill` message carries kills, score and victim but omits growth. -/
theorem C10_kill_message_fields (env : Env) (cM cB : ℕ) (M B : PlayerState)
    (g : GameState) (recent : List Announcement) (ob : List (ℕ × Msg))
    (tm : List (ℕ × TimerKind)) (hne : cM ≠ cB) :
    ((tailHitEffects1 env cM cB ⟨[(cM, M), (cB, B)], g, recent, ob, tm⟩).outbox.filter
        fun e => isKillMsg e.2) =
      (ob.filter fun e => isKillMsg e.2) ++
        [(cB, Msg.killMsg (B.kills + 1) (B.score + 5) (some KILL_SEGMENTS_GROWTH) M.id)]
    ∧ ((tailHitEffects2 env cM cB ⟨[(cM, M), (cB, B)], g, recent, ob, tm⟩).outbox.filter
        fun e => isKillMsg e.2) =
      (ob.filter fun e => isKillMsg e.2) ++
        [(cM, Msg.killMsg (M.kills + 1) (M.score + 1) none B.id)] := by
  have hbMM : (cM == cM) = true := beq_self_eq_true cM
  have hbBB : (cB == cB) = true := beq_self_eq_true cB
  have hbMB : (cM == cB) = false := beq_eq_false_iff_ne.mpr hne
  have hbBM : (cB == cM) = false := beq_eq_false_iff_ne.mpr (Ne.symm hne)
  constructor
  · unfold tailHitEffects1
    simp only [mapP, getP, List.map_cons, List.map_nil, hbMM, hbBB, hbMB, hbBM,
      Bool.false_eq_true, if_true, if_false, List.find?, Option.map_some']
    split <;> (try split) <;>
      simp [broadcastAnnouncement, broadcast, sendTo, isKillMsg,
        List.filter_append, List.filter]
  · unfold tailHitEffects2
    simp only [mapP, getP, List.map_cons, List.map_nil, hbMM, hbBB, hbMB, hbBM,
      Bool.false_eq_true, if_true, if_false, List.find?, Option.map_some']
    simp [sendTo, isKillMsg, List.filter_append, List.filter]

theorem C10_kill_message_fields_witness :
    (0 : ℕ) ≠ 1
    ∧ ((tailHitEffects1 env0 0 1 ⟨[(0, pM6), (1, pB6)], g6, [], [], []⟩).outbox.filter
        fun e => isKillMsg e.2) =
      [(1, Msg.killMsg (pB6.kills + 1) (pB6.score + 5) (some KILL_SEGMENTS_GROWTH) pM6.id)]
    ∧ ((tailHitEffects2 env0 0 1 ⟨[(0, pM6), (1, pB6)], g6, [], [], []⟩).outbox.filter
        fun e => isKillMsg e.2) =
      [(0, Msg.killMsg (pM6.kills + 1) (pM6.score + 1) none pB6.id)] :=
  ⟨by decide,
   (C10_kill_message_fields env0 0 1 pM6 pB6 g6 [] [] [] (by decide)).1,
   (C10_kill_message_fields env0 0 1 pM6 pB6 g6 [] [] [] (by decide)).2⟩

theorem pairStep_dead (env : Env) (cw wa : ℕ) (st : Server) {pA : PlayerState}
    (hget : getP st wa = some pA) (hdead : pA.alive = false) :
    pairStep env cw st wa = st := by
  unfold pairStep
  split
  · rename_i pA2 cur2 heq1 heq2
    rw [hget] at heq1
    obtain rfl : pA2 = pA := by injection heq1 with h; exact h.symm
    rw [if_neg fun hc => Bool.false_ne_true (hdead ▸ hc.2.1)]
  · rfl

theorem segsOf_mapP {st : Server} {c : ℕ} {f : PlayerState → PlayerState}
    (hf : ∀ p, (f p).segments = p.segments) :
    segsOf (mapP st c f) = segsOf st := by
  unfold segsOf mapP
  rw [List.map_map]
  refine List.map_congr_left fun e _ => ?_
  by_cases h2 : e.1 = c
  · simp [h2, hf]
  · simp [h2]

theorem segsOf_tailHitEffects1 (env : Env) (cw wa : ℕ) (st : Server) :
    segsOf (tailHitEffects1 env cw wa st) = segsOf st := by
  unfold tailHitEffects1
  dsimp only
  have h1 : segsOf (mapP (mapP st cw fun p => { p with alive := false }) wa fun p =>
      { p with kills := p.kills + 1, score := p.score + 5,
               growth := p.growth + KILL_SEGMENTS_GROWTH }) = segsOf st := by
    rw [segsOf_mapP (f := fun p => { p with kills := p.kills + 1, score := p.score + 5, growth := p.growth + KILL_SEGMENTS_GROWTH }) (fun p => rfl)]
    rw [segsOf_mapP (f := fun p => { p with alive := false }) (fun p => rfl)]
  split
  · split <;> (try split) <;> exact h1
  · exact h1

theorem segsOf_tailHitEffects2 (env : Env) (cw wa : ℕ) (st : Server) :
    segsOf (tailHitEffects2 env cw wa st) = segsOf st := by
  unfold tailHitEffects2
  dsimp only
  have h1 : segsOf (mapP (mapP st wa fun p => { p with alive := false }) cw fun p =>
      { p with kills := p.kills + 1, score := p.score + 1,
               growth := p.growth + KILL_SEGMENTS_GROWTH }) = segsOf st := by
    rw [segsOf_mapP (f := fun p => { p with kills := p.kills + 1, score := p.score + 1, growth := p.growth + KILL_SEGMENTS_GROWTH }) (fun p => rfl)]
    rw [segsOf_mapP (f := fun p => { p with alive := false }) (fun p => rfl)]
  split
  · exact h1
  · exact h1

theorem segsOf_tailLoop1 (env : Env) (cw wa : ℕ) (hd : Position) (st : Server)
    (l : List SnakeSegment) : segsOf (tailLoop1 env cw wa hd st l) = segsOf st := by
  induction l with
  | nil => rfl
  | cons s rest ih =>
    unfold tailLoop1
    split
    · exact segsOf_tailHitEffects1 env cw wa st
    · exact ih

theorem segsOf_tailLoop2 (env : Env) (cw wa : ℕ) (hd : Position) (st : Server)
    (l : List SnakeSegment) : segsOf (tailLoop2 env cw wa hd st l) = segsOf st := by
  induction l with
  | nil => rfl
  | cons s rest ih =>
    unfold tailLoop2
    split
    · exact segsOf_tailHitEffects2 env cw wa st
    · exact ih

theorem segsOf_pairStep (env : Env) (cw : ℕ) (st : Server) (wa : ℕ) :
    segsOf (pairStep env cw st wa) = segsOf st := by
  unfold pairStep
  dsimp only
  split
  · split
    · split
      · rfl
      · rfl
      · split
        · have h2 : segsOf (mapP (mapP st cw fun p => { p with alive := false }) wa
              fun p => { p with alive := false }) = segsOf st := by
            rw [segsOf_mapP (f := fun p => { p with alive := false }) (fun p => rfl)]
            rw [segsOf_mapP (f := fun p => { p with alive := false }) (fun p => rfl)]
          exact h2
        · rw [segsOf_tailLoop2, segsOf_tailLoop1]
    · rfl
  · rfl

theorem segsOf_checkCollisions (env : Env) (cw : ℕ) (st : Server) :
    segsOf (checkCollisions env cw st) = segsOf st := by
  unfold checkCollisions
  generalize st.players.map (fun e => e.1) = conns
  induction conns generalizing st with
  | nil => rfl
  | cons a t ih => rw [List.foldl_cons, ih (pairStep env cw st a), segsOf_pairStep]

/-- C8 fails on the code: the mover, although marked dead while its pair
with the second snake was resolved, is still checked against the third
snake — the third snake scores a kill off the already-dead mover and the
mover is sent a second `died` message in the same pass. -/
theorem C8_dead_mover_still_checked :
    ((getP (checkCollisions env0 0 stC8) 2).map fun p => p.kills) = some 1
    ∧ ((checkCollisions env0 0 stC8).outbox.filter fun e => isDiedMsg e.2) =
        [(0, Msg.diedMsg DeathReason.tailCollision (some 21)),
         (0, Msg.diedMsg DeathReason.tailCollision (some 22))] := by
  have hheadB : ¬ distPow (⟨0, 900⟩ : Position) ⟨100, 900⟩ < COLLISION_DISTANCE := by
    rw [distPow_lt_collision_iff]
    norm_num
  have hhitB : distPow (⟨0, 900⟩ : Position) ⟨5, 900⟩ < COLLISION_DISTANCE := by
    rw [distPow_lt_collision_iff]
    norm_num
  have hheadC : ¬ distPow (⟨0, 900⟩ : Position) ⟨200, 900⟩ < COLLISION_DISTANCE := by
    rw [distPow_lt_collision_iff]
    norm_num
  have hhitC : distPow (⟨0, 900⟩ : Position) ⟨10, 900⟩ < COLLISION_DISTANCE := by
    rw [distPow_lt_collision_iff]
    norm_num
  have hfold : checkCollisions env0 0 stC8 =
      pairStep env0 0 (pairStep env0 0 (pairStep env0 0 stC8 0) 1) 2 := rfl
  have h1 : pairStep env0 0 stC8 1 = tailHitEffects1 env0 0 1 stC8 :=
    pairStep_tailHit1 env0 0 1 stC8 (a := pB8) (b := pM6) (u := [])
      (v := ([] : List SnakeSegment)) rfl rfl (by decide) rfl rfl rfl hheadB rfl
      (by intro x hx; cases hx) hhitB (by intro x hx; cases hx)
  have h2 : pairStep env0 0 (tailHitEffects1 env0 0 1 stC8) 2 =
      tailHitEffects1 env0 0 2 (tailHitEffects1 env0 0 1 stC8) :=
    pairStep_tailHit1 env0 0 2 (tailHitEffects1 env0 0 1 stC8) (a := pC8)
      (b := { pM6 with alive := false }) (u := []) (v := ([] : List SnakeSegment))
      rfl rfl (by decide) rfl rfl rfl hheadC rfl
      (by intro x hx; cases hx) hhitC (by intro x hx; cases hx)
  rw [hfold, pairStep_self, h1, h2]
  exact ⟨rfl, rfl⟩

/-- C8 amended: a session that is already dead when its pair is examined is
skipped entirely (it can neither die nor kill in that pair); every session —
dead or alive — remains in the store with its segment list unchanged by the
collision pass; but the mover itself, once marked dead mid-pass, is still
checked against the remaining sessions, which can score further kills off
it (as in the concrete three-player pass). -/
theorem C8_dead_sessions_skipped_but_mover_not (env : Env) (cw : ℕ) (st : Server) :
    (∀ (wa : ℕ) (pA : PlayerState), getP st wa = some pA → pA.alive = false →
      pairStep env cw st wa = st)
    ∧ segsOf (checkCollisions env cw st) = segsOf st
    ∧ ((getP (checkCollisions env0 0 stC8) 2).map fun p => p.kills) = some 1 :=
  ⟨fun wa pA hget hdead => pairStep_dead env cw wa st hget hdead,
   segsOf_checkCollisions env cw st,
   by
    have hheadB : ¬ distPow (⟨0, 900⟩ : Position) ⟨100, 900⟩ < COLLISION_DISTANCE := by
      rw [distPow_lt_collision_iff]
      norm_num
    have hhitB : distPow (⟨0, 900⟩ : Position) ⟨5, 900⟩ < COLLISION_DISTANCE := by
      rw [distPow_lt_collision_iff]
      norm_num
    have hheadC : ¬ distPow (⟨0, 900⟩ : Position) ⟨200, 900⟩ < COLLISION_DISTANCE := by
      rw [distPow_lt_collision_iff]
      norm_num
    have hhitC : distPow (⟨0, 900⟩ : Position) ⟨10, 900⟩ < COLLISION_DISTANCE := by
      rw [distPow_lt_collision_iff]
      norm_num
    have hfold : checkCollisions env0 0 stC8 =
        pairStep env0 0 (pairStep env0 0 (pairStep env0 0 stC8 0) 1) 2 := rfl
    have h1 : pairStep env0 0 stC8 1 = tailHitEffects1 env0 0 1 stC8 :=
      pairStep_tailHit1 env0 0 1 stC8 (a := pB8) (b := pM6) (u := [])
        (v := ([] : List SnakeSegment)) rfl rfl (by decide) rfl rfl rfl hheadB rfl
        (by intro x hx; cases hx) hhitB (by intro x hx; cases hx)
    have h2 : pairStep env0 0 (tailHitEffects1 env0 0 1 stC8) 2 =
        tailHitEffects1 env0 0 2 (tailHitEffects1 env0 0 1 stC8) :=
      pairStep_tailHit1 env0 0 2 (tailHitEffects1 env0 0 1 stC8) (a := pC8)
        (b := { pM6 with alive := false }) (u := []) (v := ([] : List SnakeSegment))
        rfl rfl (by decide) rfl rfl rfl hheadC rfl
        (by intro x hx; cases hx) hhitC (by intro x hx; cases hx)
    rw [hfold, pairStep_self, h1, h2]
    rfl⟩

theorem foodStep_miss (env : Env) (c : ℕ) (hd : Position) (i : ℕ) (st : Server)
    (h : ∀ f, st.game.food.get? i = some f →
      ¬ distPow hd f < SEGMENT_RADIUS + FOOD_RADIUS) :
    foodStep env c hd i st = st := by
  unfold foodStep
  split
  · rfl
  · rename_i f heq
    rw [if_neg (h f heq)]

theorem foodLoop_all_miss (env : Env) (c : ℕ) (hd : Position) (st : Server) :
    ∀ n, (∀ i, i ≤ n → ∀ f, st.game.food.get? i = some f →
        ¬ distPow hd f < SEGMENT_RADIUS + FOOD_RADIUS) →
      foodLoop env c hd n st = st
  | 0, h => foodStep_miss env c hd 0 st (h 0 (Nat.le_refl 0))
  | n + 1, h => by
    unfold foodLoop
    rw [foodStep_miss env c hd (n + 1) st (h (n + 1) (Nat.le_refl _))]
    exact foodLoop_all_miss env c hd st n fun i hi => h i (Nat.le_succ_of_le hi)

theorem foodLoop_skip_down (env : Env) (c : ℕ) (hd : Position) (st : Server) (j : ℕ) :
    ∀ n, j ≤ n →
      (∀ i, j < i → i ≤ n → ∀ f, st.game.food.get? i = some f →
        ¬ distPow hd f < SEGMENT_RADIUS + FOOD_RADIUS) →
      foodLoop env c hd n st = foodLoop env c hd j st := by
  intro n
  induction n with
  | zero =>
    intro hj _
    rw [Nat.le_zero.mp hj]
  | succ n ih =>
    intro hj h
    by_cases hcase : j = n + 1
    · rw [hcase]
    · have hjn : j ≤ n := Nat.lt_succ_iff.mp (lt_of_le_of_ne hj hcase)
      rw [show foodLoop env c hd (n + 1) st =
          foodLoop env c hd n (foodStep env c hd (n + 1) st) from rfl]
      rw [foodStep_miss env c hd (n + 1) st (h (n + 1) (Nat.lt_succ_of_le hjn) (Nat.le_refl _))]
      exact ih hjn fun i hi1 hi2 => h i hi1 (Nat.le_succ_of_le hi2)

theorem isAnnouncementMsg_announcement (a : Announcement) :
    isAnnouncementMsg (Msg.announcementMsg a) = true := rfl

theorem isAnnouncementMsg_foodEaten (s g : ℕ) :
    isAnnouncementMsg (Msg.foodEatenMsg s g) = false := rfl

theorem filter_map_constAnn (l : List (ℕ × PlayerState)) (m : Msg)
    (hm : isAnnouncementMsg m = true) :
    (l.map fun e => (e.1, m)).filter (fun e => !(isAnnouncementMsg e.2)) = [] := by
  induction l with
  | nil => rfl
  | cons a t ih => simp only [List.map_cons, List.filter, hm, Bool.not_true, ih]

theorem foodStep_consume (env : Env) (c : ℕ) (hd : Position) (st : Server)
    (P : PlayerState) (rest : List (ℕ × PlayerState)) (xs ys : List Position)
    (f : Position)
    (hplayers : st.players = (c, P) :: rest)
    (hrest : ∀ e ∈ rest, e.1 ≠ c)
    (hhit : distPow hd f < SEGMENT_RADIUS + FOOD_RADIUS)
    (hfood : st.game.food = xs ++ f :: ys) :
    (foodStep env c hd xs.length st).players =
        (c, { P with score := P.score + FOOD_SCORE_VALUE, growth := P.growth + FOOD_SEGMENTS_GROWTH }) :: rest
    ∧ (foodStep env c hd xs.length st).game.food =
        (xs ++ ys) ++ [⟨(env.foodRand xs.length).1 * MAP_WIDTH,
                       (env.foodRand xs.length).2 * MAP_HEIGHT⟩]
    ∧ (foodStep env c hd xs.length st).outbox.filter (fun e => !(isAnnouncementMsg e.2)) =
        st.outbox.filter (fun e => !(isAnnouncementMsg e.2)) ++
          [(c, Msg.foodEatenMsg (P.score + FOOD_SCORE_VALUE)
            (P.segments.length + (P.growth + FOOD_SEGMENTS_GROWTH)))]
    ∧ (foodStep env c hd xs.length st).timers = st.timers := by
  have hget : st.game.food.get? xs.length = some f := by
    rw [hfood, List.get?_eq_getElem?, List.getElem?_append_right (Nat.le_refl _)]
    simp
  have herase : st.game.food.eraseIdx xs.length = xs ++ ys := by
    rw [hfood]
    clear hget hfood
    induction xs with
    | nil => rfl
    | cons a t ih => simpa [List.eraseIdx] using ih
  have hrestmap : rest.map (fun e => if e.1 == c then
      (e.1, { e.2 with score := e.2.score + FOOD_SCORE_VALUE, growth := e.2.growth + FOOD_SEGMENTS_GROWTH }) else e) = rest := by
    refine (List.map_congr_left fun e he => ?_).trans (List.map_id rest)
    simp [hrest e he]
  unfold foodStep
  split
  · rename_i heq
    rw [hget] at heq
    cases heq
  · rename_i f2 heq
    rw [hget] at heq
    obtain rfl : f2 = f := by injection heq with h; exact h.symm
    rw [if_pos hhit]
    simp only [mapP, getP, hplayers, List.map_cons, List.find?, beq_self_eq_true,
      if_true, Option.map_some', hrestmap, herase]
    by_cases h50 : P.segments.length + (P.growth + FOOD_SEGMENTS_GROWTH) = 50
    · by_cases hpts : (P.score + FOOD_SCORE_VALUE) % 50 = 0 ∧
          P.score + FOOD_SCORE_VALUE > 0 ∧ 50 ≤ P.score + FOOD_SCORE_VALUE
      · rw [if_pos h50, if_pos hpts]
        simp [broadcastAnnouncement, broadcast, sendTo, List.filter_append, List.filter,
          List.find?, filter_map_constAnn, isAnnouncementMsg_announcement,
          isAnnouncementMsg_foodEaten]
      · rw [if_pos h50, if_neg hpts]
        simp [broadcastAnnouncement, broadcast, sendTo, List.filter_append, List.filter,
          List.find?, filter_map_constAnn, isAnnouncementMsg_announcement,
          isAnnouncementMsg_foodEaten]
    · by_cases h100 : P.segments.length + (P.growth + FOOD_SEGMENTS_GROWTH) = 100
      · by_cases hpts : (P.score + FOOD_SCORE_VALUE) % 50 = 0 ∧
            P.score + FOOD_SCORE_VALUE > 0 ∧ 50 ≤ P.score + FOOD_SCORE_VALUE
        · rw [if_neg h50, if_pos h100, if_pos hpts]
          simp [broadcastAnnouncement, broadcast, sendTo, List.filter_append, List.filter,
            List.find?, filter_map_constAnn, isAnnouncementMsg_announcement,
            isAnnouncementMsg_foodEaten]
        · rw [if_neg h50, if_pos h100, if_neg hpts]
          simp [broadcastAnnouncement, broadcast, sendTo, List.filter_append, List.filter,
            List.find?, filter_map_constAnn, isAnnouncementMsg_announcement,
            isAnnouncementMsg_foodEaten]
      · by_cases hpts : (P.score + FOOD_SCORE_VALUE) % 50 = 0 ∧
            P.score + FOOD_SCORE_VALUE > 0 ∧ 50 ≤ P.score + FOOD_SCORE_VALUE
        · rw [if_neg h50, if_neg h100, if_pos hpts]
          simp [broadcastAnnouncement, broadcast, sendTo, List.filter_append, List.filter,
            List.find?, filter_map_constAnn, isAnnouncementMsg_announcement,
            isAnnouncementMsg_foodEaten]
        · rw [if_neg h50, if_neg h100, if_neg hpts]
          simp [broadcastAnnouncement, broadcast, sendTo, List.filter_append, List.filter,
            List.find?, filter_map_constAnn, isAnnouncementMsg_announcement,
            isAnnouncementMsg_foodEaten]

/-- C5: a single food-consumption event — exactly one food item within
`SEGMENT_RADIUS + FOOD_RADIUS` of the live mover's head — removes that item,
pushes exactly one freshly spawned replacement (keeping the food count
unchanged), adds `FOOD_SCORE_VALUE` to the eater's score and
`FOOD_SEGMENTS_GROWTH` to its pending growth, leaves all other sessions and
the timers untouched, and unicasts one `foodEaten` message to the eater
only. -/
theorem C5_single_food_consumption (env : Env) (c : ℕ) (st : Server)
    (P : PlayerState) (rest : List (ℕ × PlayerState)) (xs ys : List Position)
    (f : Position) (h0 : SnakeSegment) (t : List SnakeSegment)
    (hplayers : st.players = (c, P) :: rest)
    (hrest : ∀ e ∈ rest, e.1 ≠ c)
    (halive : P.alive = true)
    (hsegs : P.segments = h0 :: t)
    (hfood : st.game.food = xs ++ f :: ys)
    (hhit : distPow h0.position f < SEGMENT_RADIUS + FOOD_RADIUS)
    (hxs : ∀ g2 ∈ xs, ¬ distPow h0.position g2 < SEGMENT_RADIUS + FOOD_RADIUS)
    (hys : ∀ g2 ∈ ys, ¬ distPow h0.position g2 < SEGMENT_RADIUS + FOOD_RADIUS) :
    (checkFoodCollisions env c st).players =
        (c, { P with score := P.score + FOOD_SCORE_VALUE, growth := P.growth + FOOD_SEGMENTS_GROWTH }) :: rest
    ∧ (checkFoodCollisions env c st).game.food =
        (xs ++ ys) ++ [⟨(env.foodRand xs.length).1 * MAP_WIDTH,
                       (env.foodRand xs.length).2 * MAP_HEIGHT⟩]
    ∧ (checkFoodCollisions env c st).game.food.length = st.game.food.length
    ∧ (checkFoodCollisions env c st).outbox.filter (fun e => !(isAnnouncementMsg e.2)) =
        st.outbox.filter (fun e => !(isAnnouncementMsg e.2)) ++
          [(c, Msg.foodEatenMsg (P.score + FOOD_SCORE_VALUE)
            (P.segments.length + (P.growth + FOOD_SEGMENTS_GROWTH)))]
    ∧ (checkFoodCollisions env c st).timers = st.timers := by
  have hg : getP st c = some P := by
    unfold getP
    rw [hplayers, List.find?_cons_of_pos _ (by simp)]
    rfl
  have hlen : st.game.food.length = (xs.length + ys.length) + 1 := by
    rw [hfood]
    simp [List.length_append]
    omega
  have hcfc : checkFoodCollisions env c st =
      foodLoop env c h0.position (xs.length + ys.length) st := by
    unfold checkFoodCollisions
    split
    · rename_i heq
      rw [hg] at heq
      cases heq
    · rename_i P2 heq
      rw [hg] at heq
      obtain rfl : P2 = P := by injection heq with h; exact h.symm
      rw [if_neg (by
        rintro (h | h)
        · simp [halive] at h
        · simp [hsegs] at h)]
      rw [hsegs]
      simp only [List.head?_cons]
      rw [hlen]
  have hmiss_high : ∀ i, xs.length < i → i ≤ xs.length + ys.length →
      ∀ g2, st.game.food.get? i = some g2 →
        ¬ distPow h0.position g2 < SEGMENT_RADIUS + FOOD_RADIUS := by
    intro i hi1 hi2 g2 hgi
    rw [hfood, List.get?_eq_getElem?, List.getElem?_append_right (le_of_lt hi1)] at hgi
    have hsub : i - xs.length = (i - xs.length - 1) + 1 := by omega
    rw [hsub, List.getElem?_cons_succ] at hgi
    exact hys g2 (List.getElem?_mem hgi)
  obtain ⟨hp1, hp2, hp3, hp4⟩ :=
    foodStep_consume env c h0.position st P rest xs ys f hplayers hrest hhit hfood
  rw [hcfc, foodLoop_skip_down env c h0.position st xs.length (xs.length + ys.length)
    (Nat.le_add_right _ _) hmiss_high]
  have hmiss_low : ∀ i, i < xs.length → ∀ g2,
      (foodStep env c h0.position xs.length st).game.food.get? i = some g2 →
        ¬ distPow h0.position g2 < SEGMENT_RADIUS + FOOD_RADIUS := by
    intro i hi g2 hgi
    rw [hp2, List.get?_eq_getElem?,
      List.getElem?_append_left (by simp [List.length_append]; omega),
      List.getElem?_append_left hi] at hgi
    exact hxs g2 (List.getElem?_mem hgi)
  cases xs with
  | nil =>
    refine ⟨hp1, hp2, ?_, hp3, hp4⟩
    show (foodStep env c h0.position ([] : List Position).length st).game.food.length =
      st.game.food.length
    rw [hp2, hlen]
    simp
  | cons x xs2 =>
    have hstep : foodLoop env c h0.position (x :: xs2).length st =
        foodLoop env c h0.position xs2.length
          (foodStep env c h0.position (x :: xs2).length st) := rfl
    rw [hstep, foodLoop_all_miss env c h0.position _ xs2.length
      (fun i hi => hmiss_low i (Nat.lt_succ_of_le hi))]
    refine ⟨hp1, hp2, ?_, hp3, hp4⟩
    show (foodStep env c h0.position (x :: xs2).length st).game.food.length =
      st.game.food.length
    rw [hp2, hlen]
    simp [List.length_append]
    omega

theorem C5_single_food_consumption_witness :
    distPow ⟨100, 900⟩ ⟨105, 900⟩ < SEGMENT_RADIUS + FOOD_RADIUS
    ∧ ¬ distPow ⟨100, 900⟩ ⟨500, 900⟩ < SEGMENT_RADIUS + FOOD_RADIUS
    ∧ ¬ distPow ⟨100, 900⟩ ⟨700, 900⟩ < SEGMENT_RADIUS + FOOD_RADIUS
    ∧ (checkFoodCollisions env0 0
        ⟨[(0, ⟨30, [⟨⟨100, 900⟩⟩], 0, true, 0, 0, 0, 0⟩)],
         { g6 with food := [⟨500, 900⟩, ⟨105, 900⟩, ⟨700, 900⟩] }, [], [], []⟩).game.food =
      ([⟨500, 900⟩] ++ [⟨700, 900⟩]) ++
        [⟨(env0.foodRand 1).1 * MAP_WIDTH, (env0.foodRand 1).2 * MAP_HEIGHT⟩]
    ∧ (checkFoodCollisions env0 0
        ⟨[(0, ⟨30, [⟨⟨100, 900⟩⟩], 0, true, 0, 0, 0, 0⟩)],
         { g6 with food := [⟨500, 900⟩, ⟨105, 900⟩, ⟨700, 900⟩] }, [], [], []⟩).players =
      [(0, ⟨30, [⟨⟨100, 900⟩⟩], 0, true, 0, 0, 0 + FOOD_SCORE_VALUE, 0 + FOOD_SEGMENTS_GROWTH⟩)] := by
  have hhit : distPow (⟨100, 900⟩ : Position) ⟨105, 900⟩ < SEGMENT_RADIUS + FOOD_RADIUS := by
    rw [distPow_lt_food_iff]
    norm_num
  have hm1 : ¬ distPow (⟨100, 900⟩ : Position) ⟨500, 900⟩ < SEGMENT_RADIUS + FOOD_RADIUS := by
    rw [distPow_lt_food_iff]
    norm_num
  have hm2 : ¬ distPow (⟨100, 900⟩ : Position) ⟨700, 900⟩ < SEGMENT_RADIUS + FOOD_RADIUS := by
    rw [distPow_lt_food_iff]
    norm_num
  have hmain := C5_single_food_consumption env0 0
    ⟨[(0, ⟨30, [⟨⟨100, 900⟩⟩], 0, true, 0, 0, 0, 0⟩)],
     { g6 with food := [⟨500, 900⟩, ⟨105, 900⟩, ⟨700, 900⟩] }, [], [], []⟩
    ⟨30, [⟨⟨100, 900⟩⟩], 0, true, 0, 0, 0, 0⟩ [] [⟨500, 900⟩] [⟨700, 900⟩]
    ⟨105, 900⟩ ⟨⟨100, 900⟩⟩ [] rfl (by intro e he; cases he) rfl rfl rfl hhit
    (by
      intro g2 hg2
      rw [List.mem_singleton] at hg2
      rw [hg2]
      exact hm1)
    (by
      intro g2 hg2
      rw [List.mem_singleton] at hg2
      rw [hg2]
      exact hm2)
  exact ⟨hhit, hm1, hm2, hmain.2.1, hmain.1⟩

theorem C8_dead_sessions_skipped_but_mover_not_witness :
    getP stPostWin 1 = some ⟨11, [⟨⟨300, 900⟩⟩], 0, false, 0, 0, 3, 0⟩
    ∧ (⟨11, [⟨⟨300, 900⟩⟩], 0, false, 0, 0, 3, 0⟩ : PlayerState).alive = false
    ∧ pairStep env0 0 stPostWin 1 = stPostWin :=
  ⟨rfl, rfl,
   (C8_dead_sessions_skipped_but_mover_not env0 0 stPostWin).1 1
     ⟨11, [⟨⟨300, 900⟩⟩], 0, false, 0, 0, 3, 0⟩ rfl rfl⟩

end

end EpicSnake
